import Mathlib

/-!
Closing Package Generation Engine — verification development.

A shallow embedding of the closing-document backend (package builder in
services/packages.py, financial primitives and the approval state machine
in services/documents.py) together with theorems settling the behavioural
claims about it.

Conventions of the embedding:
* Python Decimal values are modelled by the exact fraction type Q
  below (numerator over positive denominator, kept unreduced so that all
  arithmetic is plain integer arithmetic and kernel-reducible);
  quantize(..., ROUND_HALF_UP) becomes roundHalfUpScaled (ties away from
  zero, as in Python decimal), the default quantize rounding becomes
  roundHalfEvenScaled.  The 28-significant-digit division context of
  Python decimal is idealised as exact rational division.
* Database sessions become an explicit DB value threaded through the
  builder functions; session.flush is the identity, so freshly added rows
  are immediately visible to later queries of the same run.
* one_or_none() and first() on filtered queries are modelled as the first
  matching row of the table list (insertion order).
* Calendar dates are SDate triples compared through a lexicographic
  numeric key.
* Raised ServiceError values and Python runtime errors become the PErr
  sum, returned through Except; since the embedding is pure, an error
  leaves every row unchanged (the enclosing transaction rolls back).
* uuid4 pair identifiers are modelled by a deterministic counter, and the
  SHA-256 source hash by the serialized hash basis itself (an injective
  stand-in for a collision-free digest).
* File rendering, timesheet rows, audit rows and the legacy TaskORM
  work-package tagging are outside the embedded state: they do not touch
  the Document rows or responses the claims are about.
-/

deriving instance DecidableEq for Except

namespace ClosingDocs

/-!
Exact fractions.  A value `Q.mk n d` denotes n / d; every constructor in
the embedding keeps d positive.  Equality of Q values is structural
(nothing in the embedded code compares Decimal objects for identity), and
semantic comparisons go through the Boolean ble and blt below or through
toRat.
-/

structure Q where
  n : ℤ
  d : ℕ
  deriving Repr, DecidableEq

namespace Q

/-- Semantic value of a fraction. -/
def toRat (q : Q) : ℚ := (q.n : ℚ) / (q.d : ℚ)

def add (a b : Q) : Q := ⟨a.n * b.d + b.n * a.d, a.d * b.d⟩

def sub (a b : Q) : Q := ⟨a.n * b.d - b.n * a.d, a.d * b.d⟩

def mul (a b : Q) : Q := ⟨a.n * b.n, a.d * b.d⟩

/-- Division; flips signs so the denominator stays positive. -/
def div (a b : Q) : Q :=
  if 0 ≤ b.n then ⟨a.n * b.d, a.d * b.n.toNat⟩
  else ⟨-(a.n * b.d), a.d * (-b.n).toNat⟩

/-- Boolean less-or-equal (cross multiplication). -/
def ble (a b : Q) : Bool := a.n * (b.d : ℤ) ≤ b.n * (a.d : ℤ)

/-- Boolean strict less-than (cross multiplication). -/
def blt (a b : Q) : Bool := a.n * (b.d : ℤ) < b.n * (a.d : ℤ)

def zero : Q := ⟨0, 1⟩

end Q

/-!
Decimal rounding primitives, the embedding of decimal.quantize as used in
services/packages.py (ROUND_TWO and ROUND_FOUR scales).
-/

/-- quantize with ROUND_HALF_UP at scale s (100 for two decimals, 10000
for four): ties are rounded away from zero, as in Python decimal.  For a
nonnegative q = n/d the result is floor(q·s + 1/2)/s, computed as a
single Euclidean division. -/
def roundHalfUpScaled (s : ℕ) (q : Q) : Q :=
  if 0 ≤ q.n then ⟨Int.ediv (2 * q.n * s + q.d) (2 * q.d), s⟩
  else ⟨-(Int.ediv (2 * (-q.n) * s + q.d) (2 * q.d)), s⟩

/-- quantize(ROUND_TWO, rounding=ROUND_HALF_UP). -/
def round2 (q : Q) : Q := roundHalfUpScaled 100 q

/-- quantize(ROUND_FOUR, rounding=ROUND_HALF_UP). -/
def round4 (q : Q) : Q := roundHalfUpScaled 10000 q

/-- quantize with the default decimal rounding (ROUND_HALF_EVEN) at scale
s; used by the source only for hour-type contract rates. -/
def roundHalfEvenScaled (s : ℕ) (q : Q) : Q :=
  let f : ℤ := Int.ediv (q.n * s) q.d
  let rem : ℤ := q.n * s - f * q.d
  if 2 * rem < (q.d : ℤ) then ⟨f, s⟩
  else if (q.d : ℤ) < 2 * rem then ⟨f + 1, s⟩
  else if f % 2 = 0 then ⟨f, s⟩ else ⟨f + 1, s⟩

example : round2 ⟨19999, 1000⟩ = ⟨2000, 100⟩ := by decide
example : round2 ⟨3, 1000⟩ = ⟨0, 100⟩ := by decide
example : round2 ⟨1, 200⟩ = ⟨1, 100⟩ := by decide
example : round2 ⟨-1, 200⟩ = ⟨-1, 100⟩ := by decide
example : roundHalfEvenScaled 10000 ⟨1, 8000⟩ = ⟨1, 10000⟩ := by decide

/-!
String helpers.  Python str.lower, str.strip and str.capitalize operate on
Unicode; the embedding covers ASCII plus the Cyrillic range actually used
by the source strings.  The core String.trim and the String order do not
kernel-reduce, so small structural replacements are defined here.
-/

/-- Lower-case a character (ASCII A-Z, Cyrillic А-Я and Ё). -/
def ruLowerChar (c : Char) : Char :=
  let k := c.toNat
  if 65 ≤ k ∧ k ≤ 90 then Char.ofNat (k + 32)
  else if 1040 ≤ k ∧ k ≤ 1071 then Char.ofNat (k + 32)
  else if k = 1025 then Char.ofNat 1105
  else c

/-- Upper-case a character (ASCII a-z, Cyrillic а-я and ё). -/
def ruUpperChar (c : Char) : Char :=
  let k := c.toNat
  if 97 ≤ k ∧ k ≤ 122 then Char.ofNat (k - 32)
  else if 1072 ≤ k ∧ k ≤ 1103 then Char.ofNat (k - 32)
  else if k = 1105 then Char.ofNat 1025
  else c

/-- Python str.lower over the supported alphabet. -/
def lowerRu (s : String) : String := String.mk (s.data.map ruLowerChar)

/-- Python str.capitalize: first character upper-cased, the rest
lower-cased. -/
def capitalizeRu (s : String) : String :=
  match s.data with
  | [] => ""
  | c :: rest => String.mk (ruUpperChar c :: rest.map ruLowerChar)

def isWs (c : Char) : Bool := c = ' ' ∨ c = '\t' ∨ c = '\n' ∨ c = '\r'

/-- Python str.strip (whitespace on both ends). -/
def trimStr (s : String) : String :=
  String.mk (((s.data.dropWhile isWs).reverse.dropWhile isWs).reverse)

/-- Replace every occurrence of one character (Python str.replace with
one-character pattern and replacement). -/
def replaceChar (a b : Char) (s : String) : String :=
  String.mk (s.data.map (fun c => if c = a then b else c))

/-- Code-point lexicographic less-or-equal, the order Python sorted uses
on strings. -/
def strLeChars : List Char → List Char → Bool
  | [], _ => true
  | _ :: _, [] => false
  | a :: as, b :: bs =>
      if a.toNat < b.toNat then true
      else if b.toNat < a.toNat then false
      else strLeChars as bs

def strLe (a b : String) : Bool := strLeChars a.data b.data

/-- Join a list of strings with a separator (str.join). -/
def joinSep (sep : String) : List String → String
  | [] => ""
  | [x] => x
  | x :: xs => x ++ sep ++ joinSep sep xs

/-- Python truthiness of an optional string: None and the empty string
are falsy. -/
def optTruthy (o : Option String) : Bool :=
  match o with
  | none => false
  | some s => s ≠ ""

/-!
Financial primitives from services/documents.py: the amount-to-words
conversion (_amount_to_words, _number_to_words_triplets, _choose_form).
-/

/-- A grammatical-forms triple (singular, plural-few, plural-many). -/
structure WordForms where
  one : String
  few : String
  many : String
  deriving Repr, DecidableEq

/-- Embedding of _choose_form: value is reduced modulo 100; teens take the
plural-many form, a final digit 1 the singular, 2-4 the plural-few,
anything else the plural-many. -/
def chooseForm (value : ℤ) (forms : WordForms) : String :=
  let v := value.natAbs % 100
  if 10 < v ∧ v < 20 then forms.many
  else
    let u := v % 10
    if u = 1 then forms.one
    else if 2 ≤ u ∧ u ≤ 4 then forms.few
    else forms.many

def unitsWords (gender : String) : List String :=
  if gender = "fem" then
    ["", "одна", "две", "три", "четыре", "пять", "шесть", "семь", "восемь", "девять"]
  else
    ["", "один", "два", "три", "четыре", "пять", "шесть", "семь", "восемь", "девять"]

def teensWords : List String :=
  ["десять", "одиннадцать", "двенадцать", "тринадцать", "четырнадцать",
   "пятнадцать", "шестнадцать", "семнадцать", "восемнадцать", "девятнадцать"]

def tensWords : List String :=
  ["", "десять", "двадцать", "тридцать", "сорок", "пятьдесят",
   "шестьдесят", "семьдесят", "восемьдесят", "девяносто"]

def hundredsWords : List String :=
  ["", "сто", "двести", "триста", "четыреста", "пятьсот",
   "шестьсот", "семьсот", "восемьсот", "девятьсот"]

/-- The scales table of _number_to_words_triplets; index 0 is a dummy
(the caller-provided forms are used for the lowest triplet). -/
def scalesTable : List (WordForms × String) :=
  [(⟨"рубль", "рубля", "рублей"⟩, "masc"),
   (⟨"тысяча", "тысячи", "тысяч"⟩, "fem"),
   (⟨"миллион", "миллиона", "миллионов"⟩, "masc"),
   (⟨"миллиард", "миллиарда", "миллиардов"⟩, "masc")]

/-- Forms and gender for the triplet at a given index, mirroring the
index handling of the source (beyond the table, the last scale with
masculine gender). -/
def formsAt (gender : String) (forms : WordForms) (index : ℕ) : WordForms × String :=
  if index = 0 then (forms, gender)
  else scalesTable.getD index (⟨"миллиард", "миллиарда", "миллиардов"⟩, "masc")

/-- Words of one triplet (hundreds, then teens or tens and units). -/
def tripletWordList (triplet : ℕ) (gender : String) : List String :=
  let h := triplet / 100
  let tu := triplet % 100
  let t := tu / 10
  let u := tu % 10
  (if h ≠ 0 then [hundredsWords.getD h ""] else []) ++
    (if 10 ≤ tu ∧ tu ≤ 19 then [teensWords.getD (tu - 10) ""]
     else
       (if t ≠ 0 then [tensWords.getD t ""] else []) ++
         (if u ≠ 0 then [(unitsWords gender).getD u ""] else []))

/-- The while loop of _number_to_words_triplets, structural on a fuel
argument that the caller instantiates with value + 1 (the remainder drops
by a factor of 1000 each step, so the fuel never runs out). -/
def tripletsGo (gender : String) (forms : WordForms) :
    ℕ → ℕ → ℕ → List String → List String
  | 0, _, _, acc => acc
  | fuel + 1, remainder, index, acc =>
      if remainder = 0 then acc
      else
        let triplet := remainder % 1000
        let rest := remainder / 1000
        if triplet = 0 ∧ 0 < index then tripletsGo gender forms fuel rest (index + 1) acc
        else
          let fg := formsAt gender forms index
          let tw := tripletWordList triplet fg.2
          let acc2 :=
            if tw = [] then acc
            else
              (joinSep " " ((tw ++ [chooseForm triplet fg.1]).filter (· ≠ ""))) :: acc
          tripletsGo gender forms fuel rest (index + 1) acc2

/-- Embedding of _number_to_words_triplets.  Zero (and, through the loop
condition, any nonpositive value) yields the empty string. -/
def numberToWordsTriplets (value : ℤ) (gender : String) (forms : WordForms) : String :=
  if value ≤ 0 then ""
  else
    trimStr (joinSep " " (tripletsGo gender forms (value.toNat + 1) value.toNat 0 []))

/-- Python int() truncation toward zero of a fraction. -/
def truncQ (q : Q) : ℤ := Int.tdiv q.n q.d

/-- Embedding of _amount_to_words: quantize to two decimals half-up,
split into rubles and kopeks, convert each through the triplet algorithm
with the appropriate gender, fall back to the zero phrases, and
capitalize the result. -/
def amountToWords (value : Q) : String :=
  let quantized := round2 value
  let rubles : ℤ := truncQ quantized
  let kopeks : ℤ := truncQ ((quantized.sub ⟨rubles, 1⟩).mul ⟨100, 1⟩)
  let rublesWords := numberToWordsTriplets rubles "masc" ⟨"рубль", "рубля", "рублей"⟩
  let kopeksWords := numberToWordsTriplets kopeks "fem" ⟨"копейка", "копейки", "копеек"⟩
  let rublesPart := if rublesWords ≠ "" then rublesWords else "ноль рублей"
  let kopeksPart := if kopeksWords ≠ "" then kopeksWords else "ноль копеек"
  capitalizeRu (rublesPart ++ " " ++ kopeksPart)

example : amountToWords ⟨1, 1⟩ = "Один рубль ноль копеек" := by decide
example : amountToWords ⟨0, 1⟩ = "Ноль рублей ноль копеек" := by decide
example : amountToWords ⟨123456, 100⟩
    = "Одна тысяча двести тридцать четыре рубля пятьдесят шесть копеек" := by decide

/-!
Approval state machine, from services/documents.py:
_normalize_v2_status, _collect_user_roles, _transition_document_v2_approval
and _update_document_v2_assignees.  The approval sub-record lives inside
Document.meta; the embedding carries it as an explicit structure, and a
returned error models a raised ValueError (the enclosing transaction rolls
back, so the stored record is unchanged).
-/

/-- An assignee dictionary inside the approval sub-record. -/
structure AssigneeMeta where
  id : Option String
  email : Option String
  full_name : Option String
  deriving Repr, DecidableEq

structure TimelineEntry where
  status : String
  timestamp : String
  author : String
  role : String
  message : Option String
  deriving Repr, DecidableEq

/-- The approval sub-record embedded in Document.meta. -/
structure ApprovalMeta where
  status : Option String := none
  performer_assignee : Option AssigneeMeta := none
  manager_assignee : Option AssigneeMeta := none
  timeline : List TimelineEntry := []
  submitted_at : Option String := none
  performer_approved_at : Option String := none
  performer_approved_by : Option String := none
  manager_approved_at : Option String := none
  manager_approved_by : Option String := none
  finalized_at : Option String := none
  finalized_by : Option String := none
  deriving Repr, DecidableEq

/-- First-match association lookup (dict.get with a default at the call
site). -/
def assocFind (key : String) : List (String × String) → Option String
  | [] => none
  | (k, v) :: rest => if k = key then some v else assocFind key rest

/-- The alias table of _normalize_v2_status, in source order.  Keys
containing a hyphen are kept although they are unreachable after the
hyphen replacement, exactly as in the source. -/
def statusAliasTable : List (String × String) :=
  [("draft", "draft"),
   ("pending_performer", "pending_performer"),
   ("pendingperformer", "pending_performer"),
   ("pending_performer_approval", "pending_performer"),
   ("pending_manager", "pending_manager"),
   ("pendingmanager", "pending_manager"),
   ("pending_manager_approval", "pending_manager"),
   ("manager_approved", "manager_approved"),
   ("managerapproved", "manager_approved"),
   ("manager-approved", "manager_approved"),
   ("managerapprovedpending", "manager_approved"),
   ("performer_approved", "pending_manager"),
   ("performerapproved", "pending_manager"),
   ("performer-approved", "pending_manager"),
   ("rejected_performer", "rejected_performer"),
   ("performer_rejected", "rejected_performer"),
   ("performer-rejected", "rejected_performer"),
   ("rejected_manager", "rejected_manager"),
   ("manager_rejected", "rejected_manager"),
   ("manager-rejected", "rejected_manager"),
   ("final", "final"),
   ("finalized", "final"),
   ("completed", "final")]

/-- Embedding of _normalize_v2_status. -/
def normalize_v2_status (value : Option String) : String :=
  match value with
  | none => "draft"
  | some v =>
      let text := lowerRu (trimStr v)
      if text = "" then "draft"
      else
        let text := replaceChar ' ' '_' (replaceChar '-' '_' text)
        (assocFind text statusAliasTable).getD "draft"

example : normalize_v2_status (some "Performer-Approved ") = "pending_manager" := by decide
example : normalize_v2_status none = "draft" := by decide
example : normalize_v2_status (some "bogus") = "draft" := by decide

/-- Embedding of _normalize_role_value. -/
def normalize_role_value (v : String) : Option String :=
  let s := lowerRu (trimStr v)
  if s = "" then none else some s

/-- Embedding of _collect_user_roles (the set is carried as a list; only
membership is ever observed). -/
def collect_user_roles (primary : String) (extra : List String) : List String :=
  (match normalize_role_value primary with
   | some r => [r]
   | none => []) ++ extra.filterMap normalize_role_value

def hasRole (roles : List String) (r : String) : Bool :=
  roles.any (fun x => decide (x = r))

inductive ApprovalAction
  | submit
  | performer_approve
  | performer_reject
  | manager_approve
  | manager_reject
  | finalize
  deriving Repr, DecidableEq

/-- Embedding of _transition_document_v2_approval from the current
approval sub-record; an error models the raised ValueError (state guards
and identity guards are all weakened by an effective admin or accountant
role, exactly as in the source, where every such check carries an
`and not is_admin`). -/
def transition_document_v2_approval (approval : ApprovalMeta) (action : ApprovalAction)
    (user_role : String) (user_roles : List String) (user_identifier : String)
    (user_id : String) (note : Option String) (now : String) : Except String ApprovalMeta :=
  let current_status := normalize_v2_status approval.status
  let roles := collect_user_roles user_role user_roles
  let is_admin : Bool := hasRole roles "admin" || hasRole roles "accountant"
  let performer_assignee_id : Option String := approval.performer_assignee.bind (fun a => a.id)
  let manager_assignee_id : Option String := approval.manager_assignee.bind (fun a => a.id)
  let entry : String → TimelineEntry := fun status =>
    { status := status, timestamp := now, author := user_identifier, role := user_role,
      message :=
        match note with
        | some m => if trimStr m ≠ "" then some (trimStr m) else none
        | none => none }
  let noteBlank : Bool :=
    match note with
    | none => true
    | some m => trimStr m = ""
  match action with
  | .submit =>
      if (¬ (current_status = "draft" ∨ current_status = "rejected_performer" ∨
              current_status = "rejected_manager")) ∧ is_admin = false then
        .error "Документ уже отправлен на согласование"
      else if ¬ (hasRole roles "admin" = true ∨ hasRole roles "accountant" = true ∨
              hasRole roles "manager" = true) then
        .error "Недостаточно прав для отправки на согласование"
      else
        let target := if current_status = "rejected_manager" then "pending_manager"
                      else "pending_performer"
        let a1 := { approval with submitted_at := some now,
                                  finalized_at := none, finalized_by := none }
        if target = "pending_manager" then
          match manager_assignee_id with
          | none => .error "Назначьте менеджера перед отправкой на согласование"
          | some _ =>
              .ok { a1 with status := some "pending_manager",
                            manager_approved_at := none, manager_approved_by := none,
                            timeline := approval.timeline ++ [entry "pending_manager"] }
        else
          if optTruthy performer_assignee_id = false then
            .error "Назначьте исполнителя перед отправкой на согласование"
          else
            .ok { a1 with status := some "pending_performer",
                          performer_approved_at := none, performer_approved_by := none,
                          manager_approved_at := none, manager_approved_by := none,
                          timeline := approval.timeline ++ [entry "pending_performer"] }
  | .performer_approve =>
      if ¬ current_status = "pending_performer" ∧ is_admin = false then
        .error "Документ не ожидает подтверждения исполнителем"
      else if is_admin = false ∧ (optTruthy performer_assignee_id = false ∨
              performer_assignee_id ≠ some user_id) then
        .error "Документ назначен другому исполнителю"
      else
        .ok { approval with status := some "pending_manager",
                            performer_approved_at := some now,
                            performer_approved_by := some user_identifier,
                            timeline := approval.timeline ++ [entry "pending_manager"] }
  | .performer_reject =>
      if ¬ current_status = "pending_performer" ∧ is_admin = false then
        .error "Документ не ожидает подтверждения исполнителем"
      else if is_admin = false ∧ (optTruthy performer_assignee_id = false ∨
              performer_assignee_id ≠ some user_id) then
        .error "Документ назначен другому исполнителю"
      else if noteBlank = true then
        .error "Укажите комментарий при отклонении"
      else
        .ok { approval with status := some "rejected_performer",
                            performer_approved_at := none, performer_approved_by := none,
                            manager_approved_at := none, manager_approved_by := none,
                            timeline := approval.timeline ++ [entry "rejected_performer"] }
  | .manager_approve =>
      if ¬ current_status = "pending_manager" ∧ is_admin = false then
        .error "Документ не ожидает согласования менеджера"
      else if optTruthy manager_assignee_id = true ∧ is_admin = false ∧
              manager_assignee_id ≠ some user_id then
        .error "Документ назначен другому менеджеру"
      else if optTruthy manager_assignee_id = false ∧ is_admin = false then
        .error "Назначьте менеджера перед согласованием"
      else
        .ok { approval with status := some "manager_approved",
                            manager_approved_at := some now,
                            manager_approved_by := some user_identifier,
                            timeline := approval.timeline ++ [entry "manager_approved"] }
  | .manager_reject =>
      if ¬ current_status = "pending_manager" ∧ is_admin = false then
        .error "Документ не ожидает согласования менеджера"
      else if optTruthy manager_assignee_id = true ∧ is_admin = false ∧
              manager_assignee_id ≠ some user_id then
        .error "Документ назначен другому менеджеру"
      else if optTruthy manager_assignee_id = false ∧ is_admin = false then
        .error "Назначьте менеджера перед отклонением"
      else if noteBlank = true then
        .error "Укажите комментарий при отклонении"
      else
        .ok { approval with status := some "rejected_manager",
                            manager_approved_at := none, manager_approved_by := none,
                            finalized_at := none, finalized_by := none,
                            timeline := approval.timeline ++ [entry "rejected_manager"] }
  | .finalize =>
      if ¬ current_status = "manager_approved" ∧ is_admin = false then
        .error "Документ ещё не согласован менеджером"
      else if ¬ (hasRole roles "admin" = true ∨ hasRole roles "accountant" = true ∨
              hasRole roles "manager" = true) then
        .error "Недостаточно прав для завершения документа"
      else
        .ok { approval with status := some "final",
                            finalized_at := some now,
                            finalized_by := some user_identifier,
                            timeline := approval.timeline ++ [entry "final"] }

/-- A row of the users table, as needed by assignee updates. -/
structure UserRow where
  id : String
  email : String
  full_name : String
  deriving Repr, DecidableEq

/-- The to_meta helper of _update_document_v2_assignees. -/
def to_meta_user (u : UserRow) : AssigneeMeta :=
  let fn := if trimStr u.full_name ≠ "" then trimStr u.full_name else u.email
  ⟨some u.id, some u.email, some fn⟩

/-- The resolve_user closure: None passes through, an unknown id raises. -/
def resolve_user (users : List UserRow) (uid : Option String) :
    Except String (Option UserRow) :=
  match uid with
  | none => .ok none
  | some i =>
      match users.find? (fun u => decide (u.id = i)) with
      | none => .error "Пользователь не найден"
      | some u => .ok (some u)

/-- Embedding of _update_document_v2_assignees: guards first (performer
guards before manager guards), then the assignee dictionaries are written
or removed, then the two status reverts fire only when the corresponding
assignee was removed. -/
def update_document_v2_assignees (users : List UserRow) (approval : ApprovalMeta)
    (performer_id manager_id : Option String) : Except String ApprovalMeta := do
  let performer_user ← resolve_user users performer_id
  let manager_user ← resolve_user users manager_id
  let current_status := normalize_v2_status approval.status
  let performerStageOk :=
    current_status = "draft" ∨ current_status = "pending_performer" ∨
      current_status = "rejected_performer"
  let managerLocked :=
    current_status = "manager_approved" ∨ current_status = "final"
  if performer_user ≠ none ∧ ¬ performerStageOk then
    .error "Исполнителя можно менять только до подтверждения"
  else if performer_user = none ∧ approval.performer_assignee ≠ none ∧ ¬ performerStageOk then
    .error "Нельзя снять исполнителя после подтверждения"
  else if manager_user ≠ none ∧ managerLocked then
    .error "Невозможно изменить менеджера после согласования"
  else if manager_user = none ∧ approval.manager_assignee ≠ none ∧ managerLocked then
    .error "Нельзя снять менеджера после согласования"
  else
    let a1 := { approval with performer_assignee := performer_user.map to_meta_user,
                              manager_assignee := manager_user.map to_meta_user }
    let a2 :=
      if performer_user = none ∧ (current_status = "pending_performer" ∨
          current_status = "rejected_performer") then
        { a1 with status := some "draft", submitted_at := none }
      else a1
    let a3 :=
      if manager_user = none ∧ current_status = "pending_manager" then
        { a2 with status := some "pending_performer",
                  manager_approved_at := none, manager_approved_by := none }
      else a2
    .ok a3

/-!
Data model for the package builder (orm_models.py rows restricted to the
columns the builder reads or writes, plus the recognized meta keys).
-/

/-- A calendar date; comparisons go through the lexicographic key. -/
structure SDate where
  y : ℕ
  m : ℕ
  d : ℕ
  deriving Repr, DecidableEq

def SDate.key (dt : SDate) : ℕ := dt.y * 10000 + dt.m * 100 + dt.d

def SDate.ble (a b : SDate) : Bool := a.key ≤ b.key

def SDate.blt (a b : SDate) : Bool := a.key < b.key

/-- Zero-padded decimal rendering (strftime %Y%m%d). -/
def padNum (width : ℕ) (k : ℕ) : String :=
  let s := toString k
  String.mk (List.replicate (width - s.length) '0') ++ s

def SDate.ymd (dt : SDate) : String := padNum 4 dt.y ++ padNum 2 dt.m ++ padNum 2 dt.d

/-- The tax_notes JSON dictionary of an IndividualV2 row (recognized
keys only); a row whose tax_notes is not a dictionary carries none. -/
structure TaxNotes where
  email : Option String
  account_id : Option String
  deriving Repr, DecidableEq

/-- IndividualV2ORM row. -/
structure IndividualV2Row where
  id : ℕ
  full_name : String
  ptype : Option String
  inn : Option String
  tax_notes : Option TaxNotes
  deriving Repr, DecidableEq

/-- CompanyORM row. -/
structure CompanyRow where
  id : ℕ
  name : String
  inn : String
  kpp : Option String
  is_ip : Bool
  default_vat_mode : String
  deriving Repr, DecidableEq

/-- ContractV2ORM row.  The meta JSON dictionary is represented by its
recognized keys: norm_hours, the three NPD receipt flags (collapsed into
one Boolean, since only their disjunction is ever read), and
legacy_contract_id. -/
structure ContractV2Row where
  id : ℕ
  party_type : String
  party_id : String
  performer_id : Option ℕ
  company_id : Option ℕ
  contract_number : String
  contract_date : SDate
  valid_from : SDate
  valid_to : SDate
  vat_mode : String
  currency : String
  rate_type : String
  rate_value : Q
  act_by_projects : Bool
  ip_transfer_mode : String
  status : String
  norm_hours_meta : Option Q
  npd_receipt : Bool
  legacy_contract_id_meta : Option String
  deriving Repr, DecidableEq

/-- TechAssignmentORM row. -/
structure TechAssignmentRow where
  id : ℕ
  number : String
  period_start : SDate
  period_end : SDate
  has_ip : Bool
  deriving Repr, DecidableEq

/-- ClosingPackageORM row (updated_at carried as an abstract tick). -/
structure ClosingPackageRow where
  id : ℕ
  ta_id : ℕ
  period_start : SDate
  period_end : SDate
  package_no : String
  status : String
  source_hash : String
  updated_at : ℕ
  deriving Repr, DecidableEq

/-- DocumentV2ORM row, restricted to the columns the builder writes plus
the meta entries the claims are about (approval status, source hash and
the task id snapshot). -/
structure DocumentV2Row where
  id : ℕ
  package_id : ℕ
  ta_id : ℕ
  pair_id : Option String
  doc_type : String
  template_id : Option String
  counterparty_type : String
  counterparty_id : Option ℕ
  contract_id : ℕ
  performer_id : Option ℕ
  project_id : Option ℤ
  vat_mode : String
  currency : String
  period_start : SDate
  period_end : SDate
  hours : Option Q
  rate_hour : Option Q
  amount_wo_vat : Q
  vat_amount : Q
  amount_total : Q
  version : ℕ
  approval_status : String
  source_hash : String
  task_jira_ids : List String
  deriving Repr, DecidableEq

/-- Legacy IndividualORM row. -/
structure IndividualRow where
  id : String
  name : String
  email : Option String
  external_id : Option String
  inn : Option String
  updated_at : ℕ
  deriving Repr, DecidableEq

/-- Legacy ContractORM row (columns read by the legacy migration). -/
structure ContractRow where
  id : String
  number : Option String
  contractor_id : Option String
  client_id : Option String
  rate_type : Option String
  rate : Option Q
  currency : Option String
  deriving Repr, DecidableEq

/-- LegalEntityORM row. -/
structure LegalEntityRow where
  id : String
  name : String
  inn : Option String
  kpp : Option String
  deriving Repr, DecidableEq

/-- The relational store visible to the builder.  next_id allocates the
autoincrement primary keys of every table (a shared counter keeps fresh
ids globally unique, which the source guarantees per table; nothing in
the claims depends on id reuse across tables). -/
structure DB where
  individuals_v2 : List IndividualV2Row
  companies : List CompanyRow
  contracts_v2 : List ContractV2Row
  tech_assignments : List TechAssignmentRow
  packages : List ClosingPackageRow
  documents : List DocumentV2Row
  legacy_individuals : List IndividualRow
  legacy_contracts : List ContractRow
  legal_entities : List LegalEntityRow
  next_id : ℕ
  deriving Repr, DecidableEq

/-- Recognized keys of a task meta dictionary (schemas.PackageTaskInput
.meta) that the resolver reads.  The narrative keys (summary,
description, ...) only feed document rendering and are omitted. -/
structure TaskMetaIn where
  assignee : Option String := none
  email : Option String := none
  account_id : Option String := none
  legacy_individual_id : Option String := none
  legacy_contract_id : Option String := none
  deriving Repr, DecidableEq

/-- schemas.PackageTaskInput. -/
structure PackageTaskIn where
  jira_id : String
  assignee_id : Option ℕ := none
  hours : Q
  project_id : Option ℤ := none
  status : Option String := none
  contract_id : Option ℕ := none
  company_inn : Option String := none
  meta : Option TaskMetaIn := none
  deriving Repr, DecidableEq

/-- schemas.PackageOptions (template and narrative options omitted: they
only affect rendering). -/
structure PackageOptionsIn where
  include_timesheets : Bool := false
  norm_hours : Option Q := none
  include_by_projects : String := "auto"
  autopick_contract : Bool := true
  allow_selfemployed_without_receipt : Bool := false
  deriving Repr, DecidableEq

/-- schemas.PackageCreateRequest. -/
structure PackagePayload where
  ta_id : Option ℕ := none
  period_start : SDate
  period_end : SDate
  tasks : List PackageTaskIn
  options : PackageOptionsIn := {}
  deriving Repr, DecidableEq

/-- Request context: the payload plus the ambient actor, clock tick and
calendar day. -/
structure Ctx where
  payload : PackagePayload
  actor_id : Option String
  now : ℕ
  today : SDate
  deriving Repr, DecidableEq

/-- Errors: a ServiceError with its code and message, a Python
UnboundLocalError on the named local, or a ValueError from an enum
constructor applied to an invalid value. -/
inductive PErr
  | service (code : String) (message : String)
  | unbound_local (name : String)
  | invalid_enum (value : String)
  deriving Repr, DecidableEq

/-- The transient ResolvedTask record. -/
structure ResolvedTaskE where
  jira_id : String
  performer : Option IndividualV2Row
  contract : ContractV2Row
  hours : Q
  project_id : Option ℤ
  status : Option String
  meta : Option TaskMetaIn
  deriving Repr, DecidableEq

/-!
Task and contract resolution (PackageBuilder, services/packages.py).
-/

/-- Embedding of _normalize_inn: keep the digits, empty means none. -/
def normalize_inn (inn : Option String) : Option String :=
  match inn with
  | none => none
  | some s =>
      if s = "" then none
      else
        let digits := String.mk (s.data.filter Char.isDigit)
        if digits = "" then none else some digits

/-- Embedding of PackageBuilder._normalize_text. -/
def normalize_text (v : Option String) : String := lowerRu (trimStr (v.getD ""))

def findIndividualV2 (db : DB) (i : ℕ) : Option IndividualV2Row :=
  db.individuals_v2.find? (fun p => decide (p.id = i))

def findContractV2 (db : DB) (i : ℕ) : Option ContractV2Row :=
  db.contracts_v2.find? (fun c => decide (c.id = i))

def findCompany (db : DB) (i : ℕ) : Option CompanyRow :=
  db.companies.find? (fun c => decide (c.id = i))

/-- The contract.performer relationship. -/
def contractPerformer (db : DB) (c : ContractV2Row) : Option IndividualV2Row :=
  c.performer_id.bind (findIndividualV2 db)

/-- The contract.company relationship. -/
def contractCompany (db : DB) (c : ContractV2Row) : Option CompanyRow :=
  c.company_id.bind (findCompany db)

/-- Embedding of _ensure_individual_v2_from_legacy.  The JSON-criteria
query lowercases the stored note without stripping it (func.lower on the
column), while the fallback comparisons mirror the source exactly;
one_or_none() with limit 1 is the first matching row. -/
def ensure_individual_v2_from_legacy (db : DB)
    (name email account_id legacy_id : Option String) :
    DB × Option IndividualV2Row :=
  let emailCrit : Option String :=
    match email with
    | some e =>
        if e ≠ "" then (if trimStr e ≠ "" then some (lowerRu (trimStr e)) else none)
        else none
    | none => none
  let accountCrit : Option String :=
    match account_id with
    | some a =>
        if a ≠ "" then (if trimStr a ≠ "" then some (lowerRu (trimStr a)) else none)
        else none
    | none => none
  let candidate : Option IndividualV2Row :=
    if emailCrit ≠ none ∨ accountCrit ≠ none then
      db.individuals_v2.find? (fun p =>
        (match emailCrit with
         | some ne =>
             match p.tax_notes with
             | some tn =>
                 match tn.email with
                 | some ce => decide (lowerRu ce = ne)
                 | none => false
             | none => false
         | none => true) &&
        (match accountCrit with
         | some na =>
             match p.tax_notes with
             | some tn =>
                 match tn.account_id with
                 | some ca => decide (lowerRu ca = na)
                 | none => false
             | none => false
         | none => true))
    else none
  match candidate with
  | some p => (db, some p)
  | none =>
    let legacy0 : Option IndividualRow :=
      match legacy_id with
      | some lid => db.legacy_individuals.find? (fun li => decide (li.id = lid))
      | none => none
    let legacy1 : Option IndividualRow :=
      match legacy0 with
      | some l => some l
      | none =>
          match email with
          | some e =>
              if e ≠ "" then
                db.legacy_individuals.find? (fun li =>
                  match li.email with
                  | some le => decide (lowerRu le = lowerRu e)
                  | none => false)
              else none
          | none => none
    let legacy2 : Option IndividualRow :=
      match legacy1 with
      | some l => some l
      | none =>
          match account_id with
          | some a =>
              if a ≠ "" then
                db.legacy_individuals.find? (fun li =>
                  match li.external_id with
                  | some ext => decide (lowerRu ext = lowerRu a)
                  | none => false)
              else none
          | none => none
    let legacy3 : Option IndividualRow :=
      match legacy2 with
      | some l => some l
      | none =>
          match name with
          | some nm =>
              if nm ≠ "" ∧ normalize_text (some nm) ≠ "" then
                -- order_by updated_at desc, first(): a row with maximal tick
                (db.legacy_individuals.filter (fun li =>
                    decide (lowerRu li.name = normalize_text (some nm)))).foldl
                  (fun best li =>
                    match best with
                    | none => some li
                    | some b => if b.updated_at < li.updated_at then some li else some b)
                  none
              else none
          | none => none
    if legacy3 = none ∧ optTruthy name = false ∧ optTruthy email = false ∧
        optTruthy account_id = false then
      (db, none)
    else
      let full_name :=
        match legacy3 with
        | some l => l.name
        | none =>
            if optTruthy name then name.getD ""
            else if optTruthy email then email.getD ""
            else "Неизвестный исполнитель"
      let tax_notes : Option TaxNotes :=
        if optTruthy email ∨ optTruthy account_id then
          some ⟨if optTruthy email then email else none,
                if optTruthy account_id then account_id else none⟩
        else none
      let inn : Option String :=
        match legacy3 with
        | some l => if optTruthy l.inn then l.inn else none
        | none => none
      let performer : IndividualV2Row :=
        ⟨db.next_id, full_name, some "gph", inn, tax_notes⟩
      ({ db with individuals_v2 := db.individuals_v2 ++ [performer],
                 next_id := db.next_id + 1 }, some performer)

/-- Embedding of PackageBuilder._resolve_performer_from_meta: e-mail,
normalized full name and account-id passes over all IndividualV2 rows,
then the legacy materialization fallback. -/
def resolve_performer_from_meta (db : DB) (input : PackageTaskIn) :
    DB × Option IndividualV2Row :=
  let meta := input.meta.getD {}
  let byEmail : Option IndividualV2Row :=
    match meta.email with
    | some e =>
        if e ≠ "" ∧ lowerRu (trimStr e) ≠ "" then
          db.individuals_v2.find? (fun p =>
            match p.tax_notes with
            | some tn =>
                match tn.email with
                | some ce => decide (lowerRu (trimStr ce) = lowerRu (trimStr e))
                | none => false
            | none => false)
        else none
    | none => none
  match byEmail with
  | some p => (db, some p)
  | none =>
    let byName : Option IndividualV2Row :=
      match meta.assignee with
      | some a =>
          if a ≠ "" ∧ normalize_text (some a) ≠ "" then
            db.individuals_v2.find? (fun p =>
              decide (normalize_text (some p.full_name) = normalize_text (some a)))
          else none
      | none => none
    match byName with
    | some p => (db, some p)
    | none =>
      let byAccount : Option IndividualV2Row :=
        match meta.account_id with
        | some a =>
            if a ≠ "" then
              db.individuals_v2.find? (fun p =>
                match p.tax_notes with
                | some tn =>
                    match tn.account_id with
                    | some ca => decide (lowerRu (trimStr ca) = lowerRu (trimStr a))
                    | none => false
                | none => false)
            else none
        | none => none
      match byAccount with
      | some p => (db, some p)
      | none =>
          ensure_individual_v2_from_legacy db meta.assignee meta.email
            meta.account_id meta.legacy_individual_id

/-- Embedding of _ensure_company_from_legacy. -/
def ensure_company_from_legacy (db : DB) (legal_id inn_hint : Option String) :
    DB × Option CompanyRow :=
  if optTruthy legal_id = false ∧ optTruthy inn_hint = false then (db, none)
  else
    let legal : Option LegalEntityRow :=
      match legal_id with
      | some lid =>
          if lid ≠ "" then db.legal_entities.find? (fun le => decide (le.id = lid))
          else none
      | none => none
    let inn : Option String :=
      match legal with
      | some le => if optTruthy le.inn then le.inn else inn_hint
      | none => inn_hint
    if optTruthy inn = false then (db, none)
    else
      match normalize_inn inn with
      | none => (db, none)
      | some normalized =>
          match db.companies.find? (fun c => decide (c.inn = normalized)) with
          | some existing => (db, some existing)
          | none =>
              let company : CompanyRow :=
                ⟨db.next_id,
                 (match legal with
                  | some le => le.name
                  | none => "Компания " ++ normalized),
                 normalized,
                 (match legal with
                  | some le => le.kpp
                  | none => none),
                 false, "no_vat"⟩
              ({ db with companies := db.companies ++ [company],
                         next_id := db.next_id + 1 }, some company)

/-- Embedding of _ensure_contract_v2_from_legacy: materialize a V2
contract from a legacy contract row, wiring performer and company
through their own legacy materializations; the five-year validity window
replicates the leap-day special case. -/
def ensure_contract_v2_from_legacy (ctx : Ctx) (db : DB)
    (legacy_contract_id : String) (performer : Option IndividualV2Row)
    (company_inn : Option String) : DB × Option ContractV2Row :=
  match db.legacy_contracts.find? (fun lc => decide (lc.id = legacy_contract_id)) with
  | none => (db, none)
  | some contract_legacy =>
    let step1 : DB × Option IndividualV2Row :=
      if optTruthy contract_legacy.contractor_id ∧ performer = none then
        let legacy_performer : Option IndividualRow :=
          match contract_legacy.contractor_id with
          | some cid => db.legacy_individuals.find? (fun li => decide (li.id = cid))
          | none => none
        ensure_individual_v2_from_legacy db
          (legacy_performer.map (fun l => l.name))
          (legacy_performer.bind (fun l => l.email))
          (legacy_performer.bind (fun l => l.external_id))
          (legacy_performer.map (fun l => l.id))
      else (db, performer)
    let db1 := step1.1
    let performer_v2 := step1.2
    let step2 := ensure_company_from_legacy db1 contract_legacy.client_id company_inn
    let db2 := step2.1
    let company := step2.2
    match db2.contracts_v2.find? (fun c =>
        decide (c.legacy_contract_id_meta = some contract_legacy.id)) with
    | some existing => (db2, some existing)
    | none =>
      let party_type := if company ≠ none then "company" else "individual"
      let party_id :=
        match company with
        | some co => toString co.id
        | none =>
            match performer_v2 with
            | some p => toString p.id
            | none => ""
      if party_id = "" then (db2, none)
      else
        let today := ctx.today
        let valid_to :=
          if today.m ≠ 2 ∨ today.d ≠ 29 then SDate.mk (today.y + 5) today.m today.d
          else SDate.mk (today.y + 5) today.m 28
        let contract : ContractV2Row :=
          { id := db2.next_id
            party_type := party_type
            party_id := party_id
            performer_id := performer_v2.map (fun p => p.id)
            company_id := company.map (fun co => co.id)
            contract_number :=
              (match contract_legacy.number with
               | some nb => if nb ≠ "" then nb else "LEGACY-" ++ contract_legacy.id
               | none => "LEGACY-" ++ contract_legacy.id)
            contract_date := today
            valid_from := today
            valid_to := valid_to
            vat_mode := "no_vat"
            rate_type :=
              (match contract_legacy.rate_type with
               | some rt => if rt ≠ "" then rt else "hour"
               | none => "hour")
            rate_value :=
              (match contract_legacy.rate with
               | some r => if r.n = 0 then Q.zero else r
               | none => Q.zero)
            currency :=
              (match contract_legacy.currency with
               | some cu => if cu ≠ "" then cu else "RUB"
               | none => "RUB")
            act_by_projects := false
            ip_transfer_mode := "embedded"
            status := "active"
            norm_hours_meta := none
            npd_receipt := false
            legacy_contract_id_meta := some contract_legacy.id }
        ({ db2 with contracts_v2 := db2.contracts_v2 ++ [contract],
                    next_id := db2.next_id + 1 }, some contract)

/-- Embedding of _filter_contracts_by_meta: three narrowing passes
(assignee name, e-mail note, account note), each kept only when it leaves
at least one candidate. -/
def filter_contracts_by_meta (db : DB) (candidates : List ContractV2Row)
    (meta : TaskMetaIn) : List ContractV2Row :=
  if candidates = [] then candidates
  else
    let c1 :=
      match meta.assignee with
      | some a =>
          if a ≠ "" then
            let fl := candidates.filter (fun c =>
              match contractPerformer db c with
              | some p => decide (normalize_text (some p.full_name) = normalize_text (some a))
              | none => false)
            if fl ≠ [] then fl else candidates
          else candidates
      | none => candidates
    let c2 :=
      match meta.email with
      | some e =>
          if e ≠ "" then
            let fl := c1.filter (fun c =>
              match contractPerformer db c with
              | some p =>
                  match p.tax_notes with
                  | some tn =>
                      match tn.email with
                      | some ce => decide (lowerRu (trimStr ce) = lowerRu (trimStr e))
                      | none => false
                  | none => false
              | none => false)
            if fl ≠ [] then fl else c1
          else c1
      | none => c1
    match meta.account_id with
    | some a =>
        if a ≠ "" then
          let fl := c2.filter (fun c =>
            match contractPerformer db c with
            | some p =>
                match p.tax_notes with
                | some tn =>
                    match tn.account_id with
                    | some ca => decide (lowerRu (trimStr ca) = lowerRu (trimStr a))
                    | none => false
                | none => false
            | none => false)
          if fl ≠ [] then fl else c2
        else c2
    | none => c2

/-- Embedding of PackageBuilder._ensure_contract_valid: the expiry check
precedes the status check, and a non-active status raises
validation_failed (not contract_expired).  The initial null guard of the
source (no_contract_resolved on a missing contract) cannot fire here
because the embedding passes the contract by value. -/
def ensure_contract_valid (contract : ContractV2Row) (period_end : SDate) :
    Except PErr Unit :=
  if SDate.blt contract.valid_to period_end then
    .error (.service "contract_expired" "Срок действия контракта истёк")
  else if contract.status ≠ "active" then
    .error (.service "validation_failed" "Контракт не находится в статусе active")
  else
    .ok ()

/-- Embedding of PackageBuilder._resolve_contract.  In the source,
`results = query.all()` sits after the if/else on the explicit contract
id; in the branch where an explicit id was given and found, the local
`query` was never assigned, so execution raises UnboundLocalError before
the found contract can be used.  The embedding returns
PErr.unbound_local "query" at exactly that point. -/
def resolve_contract (ctx : Ctx) (db : DB) (input : PackageTaskIn)
    (performer : Option IndividualV2Row) : Except PErr (DB × ContractV2Row) :=
  -- `if task_input.contract_id:` — a Python zero id is falsy and falls to the query branch
  let explicit_id : Option ℕ :=
    match input.contract_id with
    | some cid => if cid ≠ 0 then some cid else none
    | none => none
  match explicit_id with
  | some cid =>
      match findContractV2 db cid with
      | none =>
          .error (.service "no_contract_resolved"
            "Не найден контракт по указанному идентификатору")
      | some _found => .error (.unbound_local "query")
  | none =>
    let base := db.contracts_v2.filter (fun c =>
      decide (c.status = "active") && SDate.ble c.valid_from ctx.payload.period_end &&
        SDate.ble ctx.payload.period_start c.valid_to)
    let base :=
      match performer with
      | some p => if p.id ≠ 0 then base.filter (fun c => decide (c.performer_id = some p.id)) else base
      | none => base
    let base :=
      match input.company_inn with
      | some cinn =>
          if cinn ≠ "" then
            match normalize_inn (some cinn) with
            | some ninn =>
                base.filter (fun c =>
                  match contractCompany db c with
                  | some co => decide (co.inn = ninn)
                  | none => false)
            | none => base
          else base
      | none => base
    let results := filter_contracts_by_meta db base (input.meta.getD {})
    match results with
    | [] =>
        let meta := input.meta.getD {}
        (match meta.legacy_contract_id with
         | some lid =>
             if lid ≠ "" then
               let step := ensure_contract_v2_from_legacy ctx db lid performer input.company_inn
               match step.2 with
               | some c => .ok (step.1, c)
               | none =>
                   .error (.service "no_contract_resolved"
                     "Не удалось подобрать контракт для задачи")
             else
               .error (.service "no_contract_resolved"
                 "Не удалось подобрать контракт для задачи")
         | none =>
             .error (.service "no_contract_resolved"
               "Не удалось подобрать контракт для задачи"))
    | [single] =>
        match ensure_contract_valid single ctx.payload.period_end with
        | .error e => .error e
        | .ok _ => .ok (db, single)
    | first :: _ :: _ =>
        if ¬ ctx.payload.options.autopick_contract then
          .error (.service "no_contract_resolved"
            "Найдены несколько контрактов, требуется выбор")
        else
          let prioritized := results.filter (fun item =>
            decide (item.performer_id = performer.map (fun p => p.id)))
          let contract :=
            match prioritized with
            | pfirst :: _ => pfirst
            | [] => first
          match ensure_contract_valid contract ctx.payload.period_end with
          | .error e => .error e
          | .ok _ => .ok (db, contract)

/-- Embedding of PackageBuilder._to_decimal: Decimal(str(value))
quantized half-up at two decimals.  The float-to-string-to-Decimal round
trip is exact for every float, so the fraction value carries it
faithfully. -/
def to_decimal (v : Q) : Q := round2 v

/-- The performer-resolution prefix of _resolve_task: an explicit
assignee id is looked up (not_found when missing), otherwise the metadata
hints are tried. -/
def resolve_task_performer (db : DB) (input : PackageTaskIn) :
    Except PErr (DB × Option IndividualV2Row) :=
  -- `if task_input.assignee_id:` — a Python zero id is falsy and falls to the meta branch
  let explicit_id : Option ℕ :=
    match input.assignee_id with
    | some aid => if aid ≠ 0 then some aid else none
    | none => none
  match explicit_id with
  | some aid =>
      match findIndividualV2 db aid with
      | none => .error (.service "not_found" "Исполнитель не найден")
      | some p => .ok (db, some p)
  | none => .ok (resolve_performer_from_meta db input)

/-- Embedding of PackageBuilder._resolve_task: performer, then contract,
then the hours are quantized to two decimals half-up and checked for
positivity on the quantized value. -/
def resolve_task (ctx : Ctx) (db : DB) (input : PackageTaskIn) :
    Except PErr (DB × ResolvedTaskE) := do
  let step1 ← resolve_task_performer db input
  let step2 ← resolve_contract ctx step1.1 input step1.2
  let hours := to_decimal input.hours
  if Q.ble hours Q.zero then
    .error (.service "validation_failed" "У задачи должны быть положительные часы")
  else
    .ok (step2.1,
      { jira_id := input.jira_id, performer := step1.2, contract := step2.2,
        hours := hours, project_id := input.project_id, status := input.status,
        meta := input.meta })

/-!
Grouping and computation engine plus the package orchestrator
(PackageBuilder._build_groups .. _persist_documents, execute).
-/

structure PackageWarningE where
  wtype : String
  message : String
  deriving Repr, DecidableEq

/-- The VATMode enum values; the constructor raises ValueError on any
other string. -/
def vatModeValid (s : String) : Bool :=
  decide (s = "no_vat") || decide (s = "vat_0") || decide (s = "vat_10") || decide (s = "vat_20")

/-- Embedding of PackageBuilder._detect_performer_type. -/
def detect_performer_type (db : DB) (task : ResolvedTaskE) : String :=
  let fromTask : Option String :=
    match task.performer with
    | some p =>
        match p.ptype with
        | some t => if t ≠ "" then some t else none
        | none => none
    | none => none
  match fromTask with
  | some t => t
  | none =>
    let fromContract : Option String :=
      match contractPerformer db task.contract with
      | some p =>
          match p.ptype with
          | some t => if t ≠ "" then some t else none
          | none => none
      | none => none
    match fromContract with
    | some t => t
    | none => if task.contract.party_type = "company" then "company" else "gph"

/-- Embedding of PackageBuilder._project_bucket. -/
def project_bucket (opts : PackageOptionsIn) (task : ResolvedTaskE) : Option ℤ :=
  if opts.include_by_projects = "off" then none
  else if opts.include_by_projects = "force" then task.project_id
  else if task.contract.act_by_projects then task.project_id else none

/-- Embedding of PackageBuilder._doc_types_for; the uuid4 pair id is
modelled by a deterministic counter. -/
def doc_types_for (ta : TechAssignmentRow) (performer_type : String)
    (contract : ContractV2Row) (pairCounter : ℕ) :
    List String × Option String × ℕ :=
  let has_ip := ta.has_ip
  let ip_separate := contract.ip_transfer_mode = "separate"
  if performer_type = "employee" then
    if has_ip ∧ ip_separate then
      (["SERVICE_ASSIGN", "APP"], some ("pair-" ++ toString pairCounter), pairCounter + 1)
    else (["SERVICE_ASSIGN"], none, pairCounter)
  else
    let withIp := has_ip ∧ ip_separate
    let dts := ["AVR"] ++ (if withIp then ["APP"] else []) ++
      (if contract.vat_mode = "vat_10" ∨ contract.vat_mode = "vat_20" then ["INVOICE"] else [])
    (dts,
     if withIp then some ("pair-" ++ toString pairCounter) else none,
     if withIp then pairCounter + 1 else pairCounter)

/-- The transient GroupPlan. -/
structure GroupPlanE where
  contract : ContractV2Row
  performer : Option IndividualV2Row
  performer_type : String
  project_id : Option ℤ
  vat_mode : String
  currency : String
  doc_types : List String
  pair_id : Option String
  tasks : List ResolvedTaskE := []
  hours : Q := Q.zero
  rate_hour : Q := Q.zero
  amount_wo_vat : Q := Q.zero
  vat_amount : Q := Q.zero
  amount_total : Q := Q.zero
  deriving Repr, DecidableEq

/-- Embedding of PackageBuilder._plan_for_task; an invalid VAT-mode
string raises through the VATMode constructor. -/
def plan_for_task (db : DB) (ta : TechAssignmentRow) (opts : PackageOptionsIn)
    (pairCounter : ℕ) (task : ResolvedTaskE) : Except PErr (GroupPlanE × ℕ) :=
  let performer_type := detect_performer_type db task
  let bucket := project_bucket opts task
  let dtp := doc_types_for ta performer_type task.contract pairCounter
  if vatModeValid task.contract.vat_mode = false then
    .error (.invalid_enum task.contract.vat_mode)
  else
    .ok ({ contract := task.contract,
           performer :=
             (match task.performer with
              | some p => some p
              | none => contractPerformer db task.contract),
           performer_type := performer_type,
           project_id := bucket,
           vat_mode := task.contract.vat_mode,
           currency := task.contract.currency,
           doc_types := dtp.1,
           pair_id := dtp.2.1 }, dtp.2.2)

/-- The grouping key of _build_groups. -/
structure GKey where
  contract_id : ℕ
  performer_id : Option ℕ
  vat_mode : String
  currency : String
  project_id : Option ℤ
  doc_types : List String
  pair_id : Option String
  deriving Repr, DecidableEq

def planKey (task : ResolvedTaskE) (plan : GroupPlanE) : GKey :=
  ⟨task.contract.id, plan.performer.map (fun p => p.id), plan.vat_mode,
   plan.currency, plan.project_id, plan.doc_types, plan.pair_id⟩

/-- The per-task loop of _build_groups over an insertion-ordered
association list (a Python dict preserves insertion order).  Every task
gets a fresh plan from _plan_for_task (so a generated pair id is fresh
per task), the plan is stored only for an unseen key, and the task and
its hours are accumulated on the stored plan. -/
def groupsGo (db : DB) (ta : TechAssignmentRow) (opts : PackageOptionsIn) :
    List ResolvedTaskE → ℕ → List (GKey × GroupPlanE) →
    Except PErr (List (GKey × GroupPlanE))
  | [], _, acc => .ok acc
  | task :: rest, pairCounter, acc =>
      match plan_for_task db ta opts pairCounter task with
      | .error e => .error e
      | .ok (plan, pairCounter2) =>
          let key := planKey task plan
          let acc2 :=
            if (acc.find? (fun kv : GKey × GroupPlanE => decide (kv.1 = key))).isSome then acc
            else acc ++ [(key, plan)]
          let acc3 := acc2.map (fun kv : GKey × GroupPlanE =>
            if kv.1 = key then
              (kv.1, { kv.2 with tasks := kv.2.tasks ++ [task],
                                 hours := kv.2.hours.add task.hours })
            else kv)
          groupsGo db ta opts rest pairCounter2 acc3

/-- Embedding of the norm-hours resolution inside _resolve_rate_hour:
the explicit option wins, then the contract meta, then 168; a zero or
nonpositive value falls back to 168. -/
def resolve_norm_hours (opts : PackageOptionsIn) (contract : ContractV2Row) : Q :=
  let nh : Option Q :=
    match opts.norm_hours with
    | some v => some v
    | none => contract.norm_hours_meta
  let v : Q :=
    match nh with
    | some x => if x.n = 0 then ⟨168, 1⟩ else x
    | none => ⟨168, 1⟩
  if Q.ble v Q.zero then ⟨168, 1⟩ else v

/-- Embedding of PackageBuilder._resolve_rate_hour: hour-type (or zero)
rates are returned at four-decimal precision with the default half-even
quantize, month-type rates are divided by the norm hours and quantized
half-up at four decimals. -/
def resolve_rate_hour (opts : PackageOptionsIn) (contract : ContractV2Row) : Q :=
  let rate_value := contract.rate_value
  if contract.rate_type = "hour" ∨ rate_value.n = 0 then
    (if rate_value.n = 0 then Q.zero else roundHalfEvenScaled 10000 rate_value)
  else
    roundHalfUpScaled 10000 (rate_value.div (resolve_norm_hours opts contract))

/-- Embedding of PackageBuilder._counterparty_name. -/
def counterparty_name (db : DB) (plan : GroupPlanE) : String :=
  let companyBranch : Option String :=
    if plan.contract.party_type = "company" then
      (contractCompany db plan.contract).map (fun co => co.name)
    else none
  match companyBranch with
  | some nm => nm
  | none =>
      match (match plan.performer with
             | some p => some p
             | none => contractPerformer db plan.contract) with
      | some p => p.full_name
      | none => plan.contract.contract_number

/-- Embedding of PackageBuilder._counterparty_identity. -/
def counterparty_identity (db : DB) (plan : GroupPlanE) : String × Option ℕ :=
  if plan.contract.party_type = "company" ∧ plan.contract.company_id ≠ none then
    ("company", plan.contract.company_id)
  else
    match (match plan.performer with
           | some p => some p
           | none => contractPerformer db plan.contract) with
    | some p => ("individual", some p.id)
    | none => (plan.contract.party_type, none)

/-- Embedding of PackageBuilder._finalize_plan.  Employee plans are
zeroed; monetary plans get amount_wo_vat = half-up-2(hours × rate_hour),
vat from the mode percentage, and the total; self-employed contracts
without a confirmed NPD receipt raise unless the caller opted into a
warning. -/
def finalize_plan (db : DB) (opts : PackageOptionsIn) (plan : GroupPlanE) :
    Except PErr (GroupPlanE × List PackageWarningE) :=
  let rate_hour := resolve_rate_hour opts plan.contract
  if plan.performer_type = "employee" then
    .ok ({ plan with rate_hour := Q.zero, amount_wo_vat := Q.zero,
                     vat_amount := Q.zero, amount_total := Q.zero }, [])
  else
    let amount_wo_vat := round2 (plan.hours.mul rate_hour)
    let vat_amount :=
      if plan.vat_mode = "vat_10" then round2 (amount_wo_vat.mul ⟨10, 100⟩)
      else if plan.vat_mode = "vat_20" then round2 (amount_wo_vat.mul ⟨20, 100⟩)
      else Q.zero
    let plan2 :=
      { plan with rate_hour := rate_hour, amount_wo_vat := amount_wo_vat,
                  vat_amount := vat_amount,
                  amount_total := round2 (amount_wo_vat.add vat_amount) }
    if plan.performer_type = "selfemployed" ∧ plan.contract.npd_receipt = false then
      if opts.allow_selfemployed_without_receipt then
        .ok (plan2,
          [⟨"selfemployed_check",
            "Для самозанятого требуется чек НПД (" ++ counterparty_name db plan ++ ")"⟩])
      else
        .error (.service "selfemployed_no_receipt" "Для самозанятого не подтверждён чек НПД")
    else
      .ok (plan2, [])

def finalize_groups (db : DB) (opts : PackageOptionsIn) :
    List (GKey × GroupPlanE) → Except PErr (List GroupPlanE × List PackageWarningE)
  | [] => .ok ([], [])
  | (_, plan) :: rest =>
      match finalize_plan db opts plan with
      | .error e => .error e
      | .ok (plan2, ws) =>
          match finalize_groups db opts rest with
          | .error e => .error e
          | .ok (plans, ws2) => .ok (plan2 :: plans, ws ++ ws2)

/-!
Orchestrator: period validation, tech-assignment loading, source hash,
package reuse and document persistence.
-/

/-- Embedding of PackageBuilder._validate_period. -/
def validate_period (ctx : Ctx) : Except PErr Unit :=
  if ctx.payload.period_end.key < ctx.payload.period_start.key then
    .error (.service "validation_failed"
      "Дата начала периода должна быть не позднее даты окончания")
  else if ctx.payload.tasks = [] then
    .error (.service "validation_failed" "Не выбраны задачи для формирования пакета")
  else
    .ok ()

/-- Embedding of PackageBuilder._load_tech_assignment: an explicit ta_id
is looked up; otherwise the AUTO-numbered assignment for the period is
fetched (highest id first) or created with has_ip = false. -/
def load_tech_assignment (ctx : Ctx) (db : DB) :
    Except PErr (DB × TechAssignmentRow) :=
  -- `if self.payload.ta_id:` — a Python zero id is falsy and falls to the AUTO branch
  let explicit_id : Option ℕ :=
    match ctx.payload.ta_id with
    | some tid => if tid ≠ 0 then some tid else none
    | none => none
  match explicit_id with
  | some tid =>
      match db.tech_assignments.find? (fun t => decide (t.id = tid)) with
      | none => .error (.service "not_found" "Техническое задание не найдено")
      | some ta => .ok (db, ta)
  | none =>
      let ta_number := "AUTO-" ++ ctx.payload.period_start.ymd ++ "-" ++
        ctx.payload.period_end.ymd
      let candidates := db.tech_assignments.filter (fun t =>
        decide (t.number = ta_number) && decide (t.period_start = ctx.payload.period_start) &&
          decide (t.period_end = ctx.payload.period_end))
      let picked : Option TechAssignmentRow := candidates.foldl
        (fun best t =>
          match best with
          | none => some t
          | some b => if b.id < t.id then some t else some b)
        none
      match picked with
      | some ta => .ok (db, ta)
      | none =>
          let ta : TechAssignmentRow :=
            ⟨db.next_id, ta_number, ctx.payload.period_start, ctx.payload.period_end, false⟩
          .ok ({ db with tech_assignments := db.tech_assignments ++ [ta],
                         next_id := db.next_id + 1 }, ta)

def resolve_all_tasks (ctx : Ctx) :
    List PackageTaskIn → DB → List ResolvedTaskE →
    Except PErr (DB × List ResolvedTaskE)
  | [], db, acc => .ok (db, acc)
  | input :: rest, db, acc =>
      match resolve_task ctx db input with
      | .error e => .error e
      | .ok (db2, rt) => resolve_all_tasks ctx rest db2 (acc ++ [rt])

def qRepr (q : Q) : String := toString q.n ++ "/" ++ toString q.d

def optNatRepr : Option ℕ → String
  | some v => toString v
  | none => "null"

def optIntRepr : Option ℤ → String
  | some v => toString v
  | none => "null"

def insertByJira (t : ResolvedTaskE) : List ResolvedTaskE → List ResolvedTaskE
  | [] => [t]
  | h :: rest =>
      if strLe t.jira_id h.jira_id then t :: h :: rest else h :: insertByJira t rest

/-- Python sorted(..., key=lambda t: t.jira_id), a stable ascending sort. -/
def sortTasksByJira (l : List ResolvedTaskE) : List ResolvedTaskE :=
  l.foldr insertByJira []

def task_hash_entry (t : ResolvedTaskE) : String :=
  "(jira:" ++ t.jira_id ++ ",contract:" ++ toString t.contract.id ++
    ",performer:" ++ optNatRepr (t.performer.map (fun p => p.id)) ++
    ",hours:" ++ qRepr t.hours ++ ",project:" ++ optIntRepr t.project_id ++ ")"

/-- Embedding of PackageBuilder._compute_source_hash.  The SHA-256 hex
digest over the canonical JSON is modelled by the serialized basis
itself: it is a deterministic function of exactly the same data, and it
is injective where the digest is collision-free. -/
def compute_source_hash (ctx : Ctx) (tasks : List ResolvedTaskE) : String :=
  let sorted := sortTasksByJira tasks
  let opts := ctx.payload.options
  "sha256(" ++ "ta=" ++ optNatRepr ctx.payload.ta_id ++
    ";ps=" ++ ctx.payload.period_start.ymd ++
    ";pe=" ++ ctx.payload.period_end.ymd ++
    ";tasks=" ++ joinSep "," (sorted.map task_hash_entry) ++
    ";opts=" ++ toString opts.include_timesheets ++ "," ++
    (match opts.norm_hours with
     | some v => qRepr v
     | none => "null") ++ "," ++
    opts.include_by_projects ++ "," ++ toString opts.autopick_contract ++ ")"

/-- Embedding of PackageBuilder._generate_package_no. -/
def generate_package_no (db : DB) (ta : TechAssignmentRow) : String :=
  let base := if ta.number ≠ "" then ta.number else "TA-" ++ toString ta.id
  base ++ "-" ++ toString ((db.packages.filter (fun p => decide (p.ta_id = ta.id))).length + 1)

/-- Embedding of PackageBuilder._ensure_package: a package with the same
assignment, period and source hash is reused and only its updated_at is
touched; otherwise a fresh row is created. -/
def ensure_package (ctx : Ctx) (db : DB) (ta : TechAssignmentRow) (hash : String) :
    DB × ClosingPackageRow :=
  match db.packages.find? (fun p =>
      decide (p.ta_id = ta.id) && decide (p.period_start = ctx.payload.period_start) &&
        decide (p.period_end = ctx.payload.period_end) && decide (p.source_hash = hash)) with
  | some existing =>
      let upd := { existing with updated_at := ctx.now }
      ({ db with packages := db.packages.map (fun p => if p.id = existing.id then upd else p) },
       upd)
  | none =>
      let pkg : ClosingPackageRow :=
        ⟨db.next_id, ta.id, ctx.payload.period_start, ctx.payload.period_end,
         generate_package_no db ta, "draft", hash, ctx.now⟩
      ({ db with packages := db.packages ++ [pkg], next_id := db.next_id + 1 }, pkg)

/-- Embedding of PackageBuilder._next_version.  The query filters on
ta_id == payload.ta_id: with an omitted payload ta_id this compares the
non-null ta_id column against NULL and matches no row (the persisted
rows always carry the id of the loaded assignment). -/
def next_version (db : DB) (payload : PackagePayload) (contract_id : ℕ)
    (doc_type : String) (project_id : Option ℤ) : ℕ :=
  let rows := db.documents.filter (fun dc =>
    (match payload.ta_id with
     | some t => decide (dc.ta_id = t)
     | none => false) &&
    decide (dc.contract_id = contract_id) && decide (dc.doc_type = doc_type) &&
      decide (dc.period_start = payload.period_start) &&
      decide (dc.period_end = payload.period_end) &&
      decide (dc.project_id = project_id))
  (rows.foldl (fun acc dc => Nat.max acc dc.version) 0) + 1

structure PreviewDocE where
  doc_type : String
  counterparty : String
  contract_id : ℕ
  amount_total : Q
  vat_mode : String
  performer_type : String
  project_id : Option ℤ
  tasks : List String
  pair_id : Option String
  deriving Repr, DecidableEq

structure GenDocE where
  id : ℕ
  doc_type : String
  contract_id : ℕ
  performer_id : Option ℕ
  deriving Repr, DecidableEq

structure PackageResponseE where
  package_id : ℕ
  will_create : List PreviewDocE
  warnings : List PackageWarningE
  documents : List GenDocE
  deriving Repr, DecidableEq

/-- The inner doc-type loop of _persist_documents.  Monetary columns are
written only for AVR, APP and INVOICE; hours and rate only for AVR and
SERVICE_ASSIGN; the pair_id column only for AVR and APP; each row starts
with approval status draft.  Template selection and file rendering only
affect the rendered artifact and are omitted. -/
def persist_doc_types (ctx : Ctx) (package : ClosingPackageRow)
    (ta : TechAssignmentRow) (plan : GroupPlanE) (hash : String) :
    List String → DB → List PreviewDocE → List GenDocE →
    DB × List PreviewDocE × List GenDocE
  | [], db, ps, gs => (db, ps, gs)
  | doc_type :: rest, db, ps, gs =>
      let version := next_version db ctx.payload plan.contract.id doc_type plan.project_id
      let monetary := doc_type = "AVR" ∨ doc_type = "APP" ∨ doc_type = "INVOICE"
      let hourly := doc_type = "AVR" ∨ doc_type = "SERVICE_ASSIGN"
      let ci := counterparty_identity db plan
      let doc : DocumentV2Row :=
        { id := db.next_id
          package_id := package.id
          ta_id := ta.id
          pair_id := if doc_type = "AVR" ∨ doc_type = "APP" then plan.pair_id else none
          doc_type := doc_type
          template_id := none
          counterparty_type := ci.1
          counterparty_id := ci.2
          contract_id := plan.contract.id
          performer_id := plan.performer.map (fun p => p.id)
          project_id := plan.project_id
          vat_mode := plan.vat_mode
          currency := plan.currency
          period_start := ctx.payload.period_start
          period_end := ctx.payload.period_end
          hours := if hourly then some plan.hours else none
          rate_hour := if hourly then some plan.rate_hour else none
          amount_wo_vat := if monetary then plan.amount_wo_vat else Q.zero
          vat_amount := if monetary then plan.vat_amount else Q.zero
          amount_total := if monetary then plan.amount_total else Q.zero
          version := version
          approval_status := "draft"
          source_hash := hash
          task_jira_ids := plan.tasks.map (fun t => t.jira_id) }
      let db2 := { db with documents := db.documents ++ [doc], next_id := db.next_id + 1 }
      let preview : PreviewDocE :=
        ⟨doc_type, counterparty_name db plan, plan.contract.id,
         (if monetary then plan.amount_total else Q.zero), plan.vat_mode,
         plan.performer_type, plan.project_id, plan.tasks.map (fun t => t.jira_id),
         plan.pair_id⟩
      let gen : GenDocE :=
        ⟨doc.id, doc_type, plan.contract.id, plan.performer.map (fun p => p.id)⟩
      persist_doc_types ctx package ta plan hash rest db2 (ps ++ [preview]) (gs ++ [gen])

/-- The outer plan loop of _persist_documents. -/
def persist_documents (ctx : Ctx) (package : ClosingPackageRow)
    (ta : TechAssignmentRow) (hash : String) :
    List GroupPlanE → DB → List PreviewDocE → List GenDocE →
    DB × List PreviewDocE × List GenDocE
  | [], db, ps, gs => (db, ps, gs)
  | plan :: rest, db, ps, gs =>
      let step := persist_doc_types ctx package ta plan hash plan.doc_types db ps gs
      persist_documents ctx package ta hash rest step.1 step.2.1 step.2.2

/-- Embedding of PackageBuilder.execute / create_package: validation,
assignment loading, task resolution, source hash, package reuse or
creation, grouping, finalization and document persistence, in source
order.  Any error aborts with the store unchanged. -/
def create_package (ctx : Ctx) (db : DB) : Except PErr (DB × PackageResponseE) := do
  let _ ← validate_period ctx
  let lt ← load_tech_assignment ctx db
  let rt ← resolve_all_tasks ctx ctx.payload.tasks lt.1 []
  let hash := compute_source_hash ctx rt.2
  let ep := ensure_package ctx rt.1 lt.2 hash
  let groups ← groupsGo ep.1 lt.2 ctx.payload.options rt.2 0 []
  let fin ← finalize_groups ep.1 ctx.payload.options groups
  let pd := persist_documents ctx ep.2 lt.2 hash fin.1 ep.1 [] []
  .ok (pd.1, ⟨ep.2.id, pd.2.1, fin.2, pd.2.2⟩)

/-!
Claim scenarios and theorems.
-/

def emptyDB : DB := ⟨[], [], [], [], [], [], [], [], [], 100⟩

/-- A compact view of the version-relevant Document columns. -/
structure DocKeyView where
  package_id : ℕ
  doc_type : String
  contract_id : ℕ
  project_id : Option ℤ
  version : ℕ
  deriving Repr, DecidableEq

def docKeyView (dc : DocumentV2Row) : DocKeyView :=
  ⟨dc.package_id, dc.doc_type, dc.contract_id, dc.project_id, dc.version⟩

/-! Scenario for C1: one GPH task resolved through the active-contract
query, submitted twice with identical inputs. -/

def c1Contract : ContractV2Row :=
  { id := 1, party_type := "individual", party_id := "1", performer_id := none,
    company_id := none, contract_number := "C-1", contract_date := ⟨2025, 1, 10⟩,
    valid_from := ⟨2025, 1, 1⟩, valid_to := ⟨2026, 12, 31⟩, vat_mode := "no_vat",
    currency := "RUB", rate_type := "hour", rate_value := ⟨1000, 1⟩,
    act_by_projects := false, ip_transfer_mode := "embedded", status := "active",
    norm_hours_meta := none, npd_receipt := false, legacy_contract_id_meta := none }

def c1Db : DB := { emptyDB with contracts_v2 := [c1Contract] }

def c1Ctx : Ctx :=
  ⟨{ ta_id := none, period_start := ⟨2025, 9, 1⟩, period_end := ⟨2025, 9, 30⟩,
     tasks := [{ jira_id := "T-1", hours := ⟨8, 1⟩ }] },
   some "actor", 111, ⟨2025, 10, 1⟩⟩

def c1_run1 : Except PErr (DB × PackageResponseE) := create_package c1Ctx c1Db

def c1_run2 : Except PErr (DB × PackageResponseE) :=
  match c1_run1 with
  | .ok (db1, _) => create_package c1Ctx db1
  | .error e => .error e

/-- C1 (code_bug): resubmitting an identical request does reuse the
package (same package id, source hash found by _ensure_package, only
updated_at touched), but execute unconditionally re-runs
_persist_documents, so a second full set of Document rows is appended:
after two identical calls the store holds two rows with the same
package, doc_type, contract, project and even the same version, where
the claim promises no duplicate Document rows. -/
theorem claim1_idempotence_bug :
    c1_run1.map (fun r => r.2.package_id) = .ok 101
  ∧ c1_run1.map (fun r => r.1.documents.length) = .ok 1
  ∧ c1_run2.map (fun r => r.2.package_id) = .ok 101
  ∧ c1_run2.map (fun r => r.1.documents.length) = .ok 2
  ∧ c1_run2.map (fun r => r.1.documents.map docKeyView)
      = .ok [⟨101, "AVR", 1, none, 1⟩, ⟨101, "AVR", 1, none, 1⟩]
  ∧ c1_run2.map (fun r => r.1.packages.map (fun p => p.id)) = .ok [101] := by
  decide

/-! Scenario for C2: an employee task under a tech assignment with
has_ip and a contract with separate IP-transfer mode. -/

def c2Ta : TechAssignmentRow :=
  ⟨50, "TA-IP", ⟨2025, 9, 1⟩, ⟨2025, 9, 30⟩, true⟩

def c2Employee : IndividualV2Row :=
  ⟨7, "Иванов Иван", some "employee", none, none⟩

def c2Contract : ContractV2Row :=
  { id := 2, party_type := "individual", party_id := "7", performer_id := some 7,
    company_id := none, contract_number := "C-2", contract_date := ⟨2025, 1, 10⟩,
    valid_from := ⟨2025, 1, 1⟩, valid_to := ⟨2026, 12, 31⟩, vat_mode := "no_vat",
    currency := "RUB", rate_type := "hour", rate_value := ⟨0, 1⟩,
    act_by_projects := false, ip_transfer_mode := "separate", status := "active",
    norm_hours_meta := none, npd_receipt := false, legacy_contract_id_meta := none }

def c2Db : DB :=
  { emptyDB with tech_assignments := [c2Ta], individuals_v2 := [c2Employee],
                 contracts_v2 := [c2Contract] }

def c2Ctx : Ctx :=
  ⟨{ ta_id := some 50, period_start := ⟨2025, 9, 1⟩, period_end := ⟨2025, 9, 30⟩,
     tasks := [{ jira_id := "T-2", assignee_id := some 7, hours := ⟨8, 1⟩ }] },
   some "actor", 111, ⟨2025, 10, 1⟩⟩

def c2_run : Except PErr (DB × PackageResponseE) := create_package c2Ctx c2Db

/-- C2 (code_bug): the employee task with has_ip and separate IP mode
does yield exactly two documents, SERVICE_ASSIGN and APP, from one group
plan carrying one generated pair id — but _persist_documents writes the
pair_id column only for doc types AVR and APP, so the persisted
SERVICE_ASSIGN row has a NULL pair_id while its APP partner carries the
id: the rows do not share a non-null pair_id. -/
theorem claim2_pair_id_bug :
    c2_run.map (fun r => r.1.documents.map (fun dc => (dc.doc_type, dc.pair_id)))
      = .ok [("SERVICE_ASSIGN", none), ("APP", some "pair-0")]
  ∧ c2_run.map (fun r => r.1.documents.length) = .ok 2
  ∧ c2_run.map (fun r => r.2.will_create.map (fun p => p.pair_id))
      = .ok [some "pair-0", some "pair-0"] := by
  decide

/-! Scenario for C6: the same single-task request regenerated with
changed hours, once without an explicit ta_id (the AUTO assignment flow)
and once with an explicit ta_id. -/

def c6CtxA : Ctx :=
  ⟨{ ta_id := none, period_start := ⟨2025, 9, 1⟩, period_end := ⟨2025, 9, 30⟩,
     tasks := [{ jira_id := "T-1", hours := ⟨8, 1⟩ }] },
   some "actor", 111, ⟨2025, 10, 1⟩⟩

def c6CtxB : Ctx :=
  ⟨{ ta_id := none, period_start := ⟨2025, 9, 1⟩, period_end := ⟨2025, 9, 30⟩,
     tasks := [{ jira_id := "T-1", hours := ⟨9, 1⟩ }] },
   some "actor", 112, ⟨2025, 10, 1⟩⟩

def c6_auto_run2 : Except PErr (DB × PackageResponseE) :=
  match create_package c6CtxA c1Db with
  | .ok (db1, _) => create_package c6CtxB db1
  | .error e => .error e

def c6Ta : TechAssignmentRow :=
  ⟨60, "TA60", ⟨2025, 9, 1⟩, ⟨2025, 9, 30⟩, false⟩

def c6DbX : DB := { emptyDB with contracts_v2 := [c1Contract], tech_assignments := [c6Ta] }

def c6CtxXA : Ctx :=
  ⟨{ ta_id := some 60, period_start := ⟨2025, 9, 1⟩, period_end := ⟨2025, 9, 30⟩,
     tasks := [{ jira_id := "T-1", hours := ⟨8, 1⟩ }] },
   some "actor", 111, ⟨2025, 10, 1⟩⟩

def c6CtxXB : Ctx :=
  ⟨{ ta_id := some 60, period_start := ⟨2025, 9, 1⟩, period_end := ⟨2025, 9, 30⟩,
     tasks := [{ jira_id := "T-1", hours := ⟨9, 1⟩ }] },
   some "actor", 112, ⟨2025, 10, 1⟩⟩

def c6_explicit_run2 : Except PErr (DB × PackageResponseE) :=
  match create_package c6CtxXA c6DbX with
  | .ok (db1, _) => create_package c6CtxXB db1
  | .error e => .error e

/-- C6 (code_bug): with an explicit ta_id the regenerated document gets
version max + 1 = 2 as claimed; but _next_version filters on
ta_id == payload.ta_id, so when the request omits ta_id (the
AUTO-assignment flow) the filter compares the non-null column against
NULL, matches no prior row, and the regenerated document gets version 1
again even though a version-1 row for the same
contract+doc_type+period+project key already exists. -/
theorem claim6_version_reset_bug :
    c6_auto_run2.map (fun r => r.1.documents.map docKeyView)
      = .ok [⟨101, "AVR", 1, none, 1⟩, ⟨103, "AVR", 1, none, 1⟩]
  ∧ c6_explicit_run2.map (fun r => r.1.documents.map docKeyView)
      = .ok [⟨100, "AVR", 1, none, 1⟩, ⟨102, "AVR", 1, none, 2⟩] := by
  decide

/-! Scenario for C4: explicit contract ids, one existing and one not. -/

def c4Contract : ContractV2Row :=
  { id := 9, party_type := "individual", party_id := "9", performer_id := none,
    company_id := none, contract_number := "C-9", contract_date := ⟨2025, 1, 10⟩,
    valid_from := ⟨2025, 1, 1⟩, valid_to := ⟨2026, 12, 31⟩, vat_mode := "no_vat",
    currency := "RUB", rate_type := "hour", rate_value := ⟨500, 1⟩,
    act_by_projects := false, ip_transfer_mode := "embedded", status := "active",
    norm_hours_meta := none, npd_receipt := false, legacy_contract_id_meta := none }

def c4Db : DB := { emptyDB with contracts_v2 := [c4Contract] }

def c4Ctx : Ctx :=
  ⟨{ ta_id := none, period_start := ⟨2025, 9, 1⟩, period_end := ⟨2025, 9, 30⟩,
     tasks := [] }, some "actor", 111, ⟨2025, 10, 1⟩⟩

/-- C4 (code_bug): a task with an explicit contract id referencing an
existing contract never resolves to that contract — after the successful
lookup, control reaches `results = query.all()` where the local `query`
was never assigned, so the source raises UnboundLocalError; only the
not-found half of the claim (no_contract_resolved) behaves as specified. -/
theorem claim4_explicit_contract_crash :
    resolve_contract c4Ctx c4Db
        { jira_id := "T-4", hours := ⟨1, 1⟩, contract_id := some 9 } none
      = .error (.unbound_local "query")
  ∧ resolve_contract c4Ctx c4Db
        { jira_id := "T-4", hours := ⟨1, 1⟩, contract_id := some 77 } none
      = .error (.service "no_contract_resolved"
          "Не найден контракт по указанному идентификатору") := by
  decide

/-! Scenario and theorems for C5: contract validation error codes. -/

def c5Contract : ContractV2Row :=
  { id := 11, party_type := "individual", party_id := "11", performer_id := none,
    company_id := none, contract_number := "C-11", contract_date := ⟨2025, 1, 10⟩,
    valid_from := ⟨2025, 1, 1⟩, valid_to := ⟨2026, 1, 1⟩, vat_mode := "no_vat",
    currency := "RUB", rate_type := "hour", rate_value := ⟨500, 1⟩,
    act_by_projects := false, ip_transfer_mode := "embedded", status := "draft",
    norm_hours_meta := none, npd_receipt := false, legacy_contract_id_meta := none }

/-- C5 counterexample: a contract whose valid_to covers the period end
but whose status is draft fails with code validation_failed, not
contract_expired as the claim states. -/
theorem claim5_counterexample :
    ensure_contract_valid c5Contract ⟨2025, 12, 31⟩
      = .error (.service "validation_failed" "Контракт не находится в статусе active")
  ∧ ("validation_failed" : String) ≠ "contract_expired" := by
  decide

/-- C5 amended: validation fails with contract_expired exactly when
valid_to does not cover the period end (checked first); otherwise a
non-active status fails with validation_failed; otherwise it succeeds. -/
theorem claim5_amended (c : ContractV2Row) (pe : SDate) :
    (SDate.blt c.valid_to pe = true →
       ensure_contract_valid c pe
         = .error (.service "contract_expired" "Срок действия контракта истёк"))
  ∧ (SDate.blt c.valid_to pe = false → c.status ≠ "active" →
       ensure_contract_valid c pe
         = .error (.service "validation_failed" "Контракт не находится в статусе active"))
  ∧ (SDate.blt c.valid_to pe = false → c.status = "active" →
       ensure_contract_valid c pe = .ok ()) := by
  unfold ensure_contract_valid
  refine ⟨fun h => ?_, fun h hs => ?_, fun h hs => ?_⟩
  · simp [h]
  · simp [h, hs]
  · simp [h, hs]

/-- C5 witness: the amended theorem applied at concrete contracts. -/
theorem claim5_witness :
    ensure_contract_valid c5Contract ⟨2025, 12, 31⟩
      = .error (.service "validation_failed" "Контракт не находится в статусе active")
  ∧ ensure_contract_valid c5Contract ⟨2026, 6, 1⟩
      = .error (.service "contract_expired" "Срок действия контракта истёк")
  ∧ ensure_contract_valid c4Contract ⟨2025, 12, 31⟩ = .ok () := by
  refine ⟨(claim5_amended c5Contract ⟨2025, 12, 31⟩).2.1 (by decide) (by decide),
          (claim5_amended c5Contract ⟨2026, 6, 1⟩).1 (by decide),
          (claim5_amended c4Contract ⟨2025, 12, 31⟩).2.2 (by decide) (by decide)⟩

/-! Scenarios and theorems for C3: state guards of the approval
machine. -/

def c3PendingPerformer : ApprovalMeta :=
  { status := some "pending_performer",
    performer_assignee := some ⟨some "U1", none, none⟩ }

def c3Final : ApprovalMeta :=
  { status := some "final",
    performer_assignee := some ⟨some "U1", none, none⟩ }

/-- C3 counterexample: an admin caller runs manager_approve on a
pending_performer document and submit on a final document, and both
succeed and change the state — every state guard in
_transition_document_v2_approval carries an `and not is_admin`, so
admin and accountant bypass the state guards too, contrary to the
claim that they bypass only identity guards. -/
theorem claim3_counterexample :
    (transition_document_v2_approval c3PendingPerformer .manager_approve
        "admin" [] "Admin" "adm-1" none "t0").map (fun a => a.status)
      = .ok (some "manager_approved")
  ∧ (transition_document_v2_approval c3Final .submit
        "accountant" [] "Acc" "acc-1" none "t0").map (fun a => a.status)
      = .ok (some "pending_performer") := by
  decide

/-- Whether the effective roles contain admin or accountant (the
is_admin flag of the transition function). -/
def is_admin_caller (role : String) (extra : List String) : Bool :=
  hasRole (collect_user_roles role extra) "admin" ||
    hasRole (collect_user_roles role extra) "accountant"

/-- C3 amended: for every caller whose effective roles contain neither
admin nor accountant, manager_approve on a pending_performer document
fails with a domain error, and submit on a final document fails with a
domain error; the pure transition returns the error without touching the
record (admin and accountant bypass state guards as well as identity
guards, which is the part the counterexample removes from the claim). -/
theorem claim3_amended (a : ApprovalMeta) (role : String) (extra : List String)
    (uident uid : String) (note : Option String) (now : String)
    (hadm : is_admin_caller role extra = false) :
    (normalize_v2_status a.status = "pending_performer" →
       transition_document_v2_approval a .manager_approve role extra uident uid note now
         = .error "Документ не ожидает согласования менеджера")
  ∧ (normalize_v2_status a.status = "final" →
       transition_document_v2_approval a .submit role extra uident uid note now
         = .error "Документ уже отправлен на согласование") := by
  have hadm2 : (hasRole (collect_user_roles role extra) "admin" ||
      hasRole (collect_user_roles role extra) "accountant") = false := hadm
  constructor
  · intro h
    simp [transition_document_v2_approval, h, hadm2]
  · intro h
    simp [transition_document_v2_approval, h, hadm2]

/-- C3 witness: the amended theorem applied to a manager-role caller on
concrete pending_performer and final records. -/
theorem claim3_witness :
    transition_document_v2_approval c3PendingPerformer .manager_approve
        "manager" [] "Mgr" "mgr-1" none "t0"
      = .error "Документ не ожидает согласования менеджера"
  ∧ transition_document_v2_approval c3Final .submit
        "manager" [] "Mgr" "mgr-1" none "t0"
      = .error "Документ уже отправлен на согласование" := by
  refine ⟨(claim3_amended c3PendingPerformer "manager" [] "Mgr" "mgr-1" none "t0"
            (by decide)).1 (by decide),
          (claim3_amended c3Final "manager" [] "Mgr" "mgr-1" none "t0"
            (by decide)).2 (by decide)⟩

/-! Scenarios and theorems for C9: assignee reassignment against
approval state. -/

def c9Users : List UserRow :=
  [⟨"A", "a@example.com", "Алиса"⟩, ⟨"B", "b@example.com", "Борис"⟩]

def c9Approval : ApprovalMeta :=
  { status := some "pending_performer",
    performer_assignee := some ⟨some "A", some "a@example.com", some "Алиса"⟩ }

/-- C9 counterexample: reassigning the performer of a pending_performer
document to a different existing user succeeds and leaves the status at
pending_performer — the claimed revert to draft fires only when the
performer assignee is removed (set to null), not when it is replaced. -/
theorem claim9_counterexample :
    (update_document_v2_assignees c9Users c9Approval (some "B") none).map
        (fun a => a.status) = .ok (some "pending_performer")
  ∧ (some "pending_performer" : Option String) ≠ some "draft" := by
  decide

/-- C9 amended: removing the performer assignee (null performer id)
while pending_performer or rejected_performer reverts the status to
draft; removing the manager while pending_manager (possible only with no
performer assignee set, since the performer guards run first) reverts it
to pending_performer; setting a performer after that stage is past
(status outside draft/pending_performer/rejected_performer) fails with a
domain error, as does setting a manager when the status is
manager_approved or final; and replacing the performer by a different
user while pending_performer keeps the status unchanged. -/
theorem claim9_amended (users : List UserRow) (a : ApprovalMeta) :
    ((normalize_v2_status a.status = "pending_performer" ∨
        normalize_v2_status a.status = "rejected_performer") →
       (update_document_v2_assignees users a none none).map (fun r => r.status)
         = .ok (some "draft"))
  ∧ (normalize_v2_status a.status = "pending_manager" → a.performer_assignee = none →
       (update_document_v2_assignees users a none none).map (fun r => r.status)
         = .ok (some "pending_performer"))
  ∧ (∀ p u, users.find? (fun x => decide (x.id = p)) = some u →
       ¬ (normalize_v2_status a.status = "draft" ∨
           normalize_v2_status a.status = "pending_performer" ∨
           normalize_v2_status a.status = "rejected_performer") →
       update_document_v2_assignees users a (some p) none
         = .error "Исполнителя можно менять только до подтверждения")
  ∧ (∀ m u, users.find? (fun x => decide (x.id = m)) = some u →
       a.performer_assignee = none →
       (normalize_v2_status a.status = "manager_approved" ∨
         normalize_v2_status a.status = "final") →
       update_document_v2_assignees users a none (some m)
         = .error "Невозможно изменить менеджера после согласования")
  ∧ (∀ p u, users.find? (fun x => decide (x.id = p)) = some u →
       normalize_v2_status a.status = "pending_performer" →
       (update_document_v2_assignees users a (some p) none).map (fun r => r.status)
         = .ok a.status) := by
  refine ⟨fun h => ?_, fun h hp => ?_, fun p u hf h => ?_, fun m u hf hp h => ?_,
          fun p u hf h => ?_⟩
  · rcases h with h | h <;>
      simp [update_document_v2_assignees, resolve_user, Bind.bind, Except.bind, Except.map, h]
  · simp [update_document_v2_assignees, resolve_user, Bind.bind, Except.bind, Except.map, h, hp]
  · simp [update_document_v2_assignees, resolve_user, Bind.bind, Except.bind, Except.map, hf, h]
  · rcases h with h | h <;>
      simp [update_document_v2_assignees, resolve_user, Bind.bind, Except.bind, hf, h, hp]
  · simp [update_document_v2_assignees, resolve_user, Bind.bind, Except.bind, Except.map, hf, h]

/-- C9 witness: the amended theorem applied to concrete records. -/
theorem claim9_witness :
    (update_document_v2_assignees c9Users c9Approval none none).map (fun r => r.status)
      = .ok (some "draft")
  ∧ update_document_v2_assignees c9Users
        { c9Approval with status := some "manager_approved" } (some "B") none
      = .error "Исполнителя можно менять только до подтверждения"
  ∧ update_document_v2_assignees c9Users
        { status := some "final" } none (some "B")
      = .error "Невозможно изменить менеджера после согласования"
  ∧ (update_document_v2_assignees c9Users c9Approval (some "B") none).map
        (fun r => r.status) = .ok (some "pending_performer") := by
  refine ⟨(claim9_amended c9Users c9Approval).1 (Or.inl (by decide)),
          (claim9_amended c9Users _).2.2.1 "B" ⟨"B", "b@example.com", "Борис"⟩
            (by decide) (by decide),
          (claim9_amended c9Users _).2.2.2.1 "B" ⟨"B", "b@example.com", "Борис"⟩
            (by decide) (by decide) (Or.inr (by decide)),
          (claim9_amended c9Users c9Approval).2.2.2.2 "B" ⟨"B", "b@example.com", "Борис"⟩
            (by decide) (by decide)⟩

/-! Theorems for C10: hours are quantized before the positivity check. -/

/-- The quantized hours pass the positivity check exactly when the raw
hours are at least 0.005 (for a well-formed fraction). -/
theorem round2_pos_iff (q : Q) (hd : 0 < q.d) :
    (Q.ble (round2 q) Q.zero = false) ↔ (1 : ℚ) / 200 ≤ q.toRat := by
  have rhs : ((1 : ℚ) / 200 ≤ q.toRat) ↔ ((q.d : ℤ) ≤ 200 * q.n) := by
    unfold Q.toRat
    rw [div_le_div_iff₀ (by norm_num) (by exact_mod_cast hd), one_mul, mul_comm]
    norm_cast
  unfold round2 roundHalfUpScaled
  by_cases hn : (0 : ℤ) ≤ q.n
  · rw [if_pos hn]
    simp only [Q.ble, Q.zero, decide_eq_false_iff_not, not_le, Nat.cast_one, mul_one,
      zero_mul, Nat.cast_ofNat]
    have key : (0 < Int.ediv (2 * q.n * 100 + (q.d : ℤ)) (2 * (q.d : ℤ))) ↔
        ((q.d : ℤ) ≤ 200 * q.n) := by
      have hB : (0 : ℤ) < 2 * q.d := by omega
      have hdiv : Int.ediv (2 * q.n * 100 + (q.d : ℤ)) (2 * (q.d : ℤ))
          = (2 * q.n * 100 + (q.d : ℤ)) / (2 * (q.d : ℤ)) := rfl
      rw [hdiv]
      constructor
      · intro h0
        have h1 : (1 : ℤ) ≤ (2 * q.n * 100 + (q.d : ℤ)) / (2 * (q.d : ℤ)) := by omega
        rw [Int.le_ediv_iff_mul_le hB] at h1
        omega
      · intro h1
        have h2 : (1 : ℤ) * (2 * q.d) ≤ 2 * q.n * 100 + (q.d : ℤ) := by omega
        have h3 := (Int.le_ediv_iff_mul_le hB).mpr h2
        omega
    rw [key, rhs]
  · rw [if_neg hn]
    push_neg at hn
    simp only [Q.ble, Q.zero, decide_eq_false_iff_not, not_le, Nat.cast_one, mul_one,
      zero_mul, Nat.cast_ofNat]
    constructor
    · intro h0
      exfalso
      have hE2 : 0 ≤ Int.ediv (2 * -q.n * 100 + (q.d : ℤ)) (2 * (q.d : ℤ)) :=
        Int.ediv_nonneg (by omega) (by omega)
      omega
    · intro h1
      exfalso
      have hq : q.toRat < 0 := by
        unfold Q.toRat
        exact div_neg_of_neg_of_pos (by exact_mod_cast hn) (by exact_mod_cast hd)
      have hpos : (0 : ℚ) < 1 / 200 := by norm_num
      linarith

/-- C10: in _resolve_task the hours are first quantized to two decimals
half-up (_to_decimal) and only then compared against zero, so — once the
performer and contract resolve — the task fails with validation_failed
exactly when the quantized hours are nonpositive, succeeds with the
quantized hours stored in the ResolvedTask otherwise, and for a
well-formed hours fraction the accepted inputs are exactly those with
hours at least 0.005. -/
theorem claim10_hours_rounding (ctx : Ctx) (db db1 db2 : DB) (input : PackageTaskIn)
    (perf : Option IndividualV2Row) (c : ContractV2Row)
    (hp : resolve_task_performer db input = .ok (db1, perf))
    (hc : resolve_contract ctx db1 input perf = .ok (db2, c)) :
    (Q.ble (round2 input.hours) Q.zero = true →
       resolve_task ctx db input
         = .error (.service "validation_failed" "У задачи должны быть положительные часы"))
  ∧ (Q.ble (round2 input.hours) Q.zero = false →
       resolve_task ctx db input
         = .ok (db2,
             { jira_id := input.jira_id, performer := perf, contract := c,
               hours := round2 input.hours, project_id := input.project_id,
               status := input.status, meta := input.meta }))
  ∧ (0 < input.hours.d →
       ((Q.ble (round2 input.hours) Q.zero = false) ↔
         (1 : ℚ) / 200 ≤ input.hours.toRat)) := by
  refine ⟨fun h => ?_, fun h => ?_, fun hd => round2_pos_iff input.hours hd⟩
  · simp [resolve_task, Bind.bind, Except.bind, hp, hc, to_decimal, h]
  · simp [resolve_task, Bind.bind, Except.bind, hp, hc, to_decimal, h]

/-! Witness scenario for C10. -/

def c10Ctx : Ctx :=
  ⟨{ ta_id := none, period_start := ⟨2025, 9, 1⟩, period_end := ⟨2025, 9, 30⟩,
     tasks := [] }, some "actor", 111, ⟨2025, 10, 1⟩⟩

def c10TinyTask : PackageTaskIn := { jira_id := "T-X", hours := ⟨3, 1000⟩ }

def c10OkTask : PackageTaskIn := { jira_id := "T-X", hours := ⟨1, 200⟩ }

/-- C10 witness: with the C4 store (one matching active contract),
hours 0.003 quantize to 0.00 and fail with validation_failed, while
hours 0.005 quantize to 0.01 and are accepted with the quantized value
stored. -/
theorem claim10_witness :
    resolve_task c10Ctx c4Db c10TinyTask
      = .error (.service "validation_failed" "У задачи должны быть положительные часы")
  ∧ (resolve_task c10Ctx c4Db c10OkTask).map (fun r => r.2.hours) = .ok ⟨1, 100⟩
  ∧ ((0 : ℚ) < (3 : ℚ) / 1000 ∧ (3 : ℚ) / 1000 < 1 / 200) := by
  have hp1 : resolve_task_performer c4Db c10TinyTask = .ok (c4Db, none) := by decide
  have hc1 : resolve_contract c10Ctx c4Db c10TinyTask none = .ok (c4Db, c4Contract) := by
    decide
  have hp2 : resolve_task_performer c4Db c10OkTask = .ok (c4Db, none) := by decide
  have hc2 : resolve_contract c10Ctx c4Db c10OkTask none = .ok (c4Db, c4Contract) := by
    decide
  refine ⟨(claim10_hours_rounding c10Ctx c4Db c4Db c4Db c10TinyTask none c4Contract
            hp1 hc1).1 (by decide), ?_, by norm_num⟩
  have h2 := (claim10_hours_rounding c10Ctx c4Db c4Db c4Db c10OkTask none c4Contract
    hp2 hc2).2.1 (by decide)
  rw [h2]
  decide

/-! Theorems for C7: monetary rounding. -/

/-- The clipped norm-hours value is always positive in the numerator. -/
theorem norm_clip_pos (v : Q) : 0 < (if Q.ble v Q.zero then (⟨168, 1⟩ : Q) else v).n := by
  split_ifs with h
  · decide
  · have h2 : ¬ (v.n * ((1 : ℕ) : ℤ) ≤ 0 * (v.d : ℤ)) := by
      simpa [Q.ble, Q.zero] using h
    omega

theorem resolve_norm_hours_n_pos (opts : PackageOptionsIn) (c : ContractV2Row) :
    0 < (resolve_norm_hours opts c).n :=
  norm_clip_pos _

/-- Half-up quantization of a zero-numerator fraction has value zero. -/
theorem roundHalfUp_zero_num (s : ℕ) (q : Q) (hq : q.n = 0) (hd : 0 < q.d) :
    (roundHalfUpScaled s q).toRat = 0 := by
  unfold roundHalfUpScaled
  rw [if_pos (by rw [hq] : (0 : ℤ) ≤ q.n)]
  have hNum : 2 * q.n * (s : ℤ) + (q.d : ℤ) = (q.d : ℤ) := by rw [hq]; ring
  have hE : Int.ediv (2 * q.n * (s : ℤ) + (q.d : ℤ)) (2 * (q.d : ℤ)) = 0 := by
    rw [hNum]
    exact Int.ediv_eq_zero_of_lt (by omega) (by omega)
  unfold Q.toRat
  simp [hE]

/-- C7: for a non-employee plan that finalizes successfully,
amount_wo_vat is hours × rate_hour rounded half-up at two decimals,
vat_amount is the 10 or 20 percent share of the rounded amount rounded
half-up at two decimals (zero for the other modes), and amount_total is
their rounded sum; a month-based contract rate is rate_value divided by
the resolved norm hours and rounded half-up at four decimals; and the
rounding applied to the VAT product turns 99.995 × 20% = 19.999 into
20.00 rather than 19.99. -/
theorem claim7_rounding :
    (∀ (db : DB) (opts : PackageOptionsIn) (plan plan2 : GroupPlanE)
        (ws : List PackageWarningE),
        finalize_plan db opts plan = .ok (plan2, ws) →
        plan.performer_type ≠ "employee" →
          plan2.amount_wo_vat = round2 (plan.hours.mul (resolve_rate_hour opts plan.contract))
        ∧ plan2.vat_amount =
            (if plan.vat_mode = "vat_10" then round2 (plan2.amount_wo_vat.mul ⟨10, 100⟩)
             else if plan.vat_mode = "vat_20" then round2 (plan2.amount_wo_vat.mul ⟨20, 100⟩)
             else Q.zero)
        ∧ plan2.amount_total = round2 (plan2.amount_wo_vat.add plan2.vat_amount))
  ∧ (∀ (opts : PackageOptionsIn) (c : ContractV2Row),
        c.rate_type ≠ "hour" → 0 < c.rate_value.d →
        (resolve_rate_hour opts c).toRat
          = (roundHalfUpScaled 10000 (c.rate_value.div (resolve_norm_hours opts c))).toRat)
  ∧ (round2 ((⟨99995, 1000⟩ : Q).mul ⟨20, 100⟩)).toRat = 20 := by
  refine ⟨?_, ?_, ?_⟩
  · intro db opts plan plan2 ws hfin hne
    simp only [finalize_plan] at hfin
    rw [if_neg hne] at hfin
    by_cases hse : plan.performer_type = "selfemployed" ∧ plan.contract.npd_receipt = false
    · rw [if_pos hse] at hfin
      by_cases hallow : opts.allow_selfemployed_without_receipt = true
      · rw [if_pos hallow] at hfin
        injection hfin with h
        injection h with h1 h2
        subst h1
        exact ⟨rfl, rfl, rfl⟩
      · rw [if_neg hallow] at hfin
        exact absurd hfin (by simp)
    · rw [if_neg hse] at hfin
      injection hfin with h
      injection h with h1 h2
      subst h1
      exact ⟨rfl, rfl, rfl⟩
  · intro opts c hht hrd
    have hnn := resolve_norm_hours_n_pos opts c
    unfold resolve_rate_hour
    by_cases h0 : c.rate_value.n = 0
    · rw [if_pos (Or.inr h0), if_pos h0]
      have hdd : 0 < (c.rate_value.div (resolve_norm_hours opts c)).d := by
        unfold Q.div
        rw [if_pos (le_of_lt hnn)]
        have ht : 0 < (resolve_norm_hours opts c).n.toNat := by omega
        exact Nat.mul_pos hrd ht
      have hdn : (c.rate_value.div (resolve_norm_hours opts c)).n = 0 := by
        unfold Q.div
        rw [if_pos (le_of_lt hnn)]
        simp [h0]
      rw [roundHalfUp_zero_num 10000 _ hdn hdd]
      simp [Q.zero, Q.toRat]
    · rw [if_neg (not_or.mpr ⟨hht, h0⟩)]
  · have hval : round2 ((⟨99995, 1000⟩ : Q).mul ⟨20, 100⟩) = ⟨2000, 100⟩ := by decide
    rw [hval]
    unfold Q.toRat
    norm_num

/-! Witness scenario for C7: a GPH plan with a month-based contract rate
and 20% VAT. -/

def c7Contract : ContractV2Row :=
  { id := 21, party_type := "individual", party_id := "21", performer_id := none,
    company_id := none, contract_number := "C-21", contract_date := ⟨2025, 1, 10⟩,
    valid_from := ⟨2025, 1, 1⟩, valid_to := ⟨2026, 12, 31⟩, vat_mode := "vat_20",
    currency := "RUB", rate_type := "month", rate_value := ⟨168000, 1⟩,
    act_by_projects := false, ip_transfer_mode := "embedded", status := "active",
    norm_hours_meta := none, npd_receipt := false, legacy_contract_id_meta := none }

def c7Plan : GroupPlanE :=
  { contract := c7Contract, performer := none, performer_type := "gph",
    project_id := none, vat_mode := "vat_20", currency := "RUB",
    doc_types := ["AVR", "INVOICE"], pair_id := none, tasks := [],
    hours := ⟨800, 100⟩ }

def c7Plan2 : GroupPlanE :=
  match finalize_plan emptyDB {} c7Plan with
  | .ok (p, _) => p
  | .error _ => c7Plan

/-- C7 witness: the rounding theorem applied to a concrete plan (8.00
hours at a month rate of 168000 over the default 168 norm hours, 20%
VAT), together with the concrete derived values. -/
theorem claim7_witness :
    finalize_plan emptyDB {} c7Plan = .ok (c7Plan2, [])
  ∧ c7Plan2.amount_wo_vat = round2 (c7Plan.hours.mul (resolve_rate_hour {} c7Contract))
  ∧ c7Plan2.vat_amount = round2 (c7Plan2.amount_wo_vat.mul ⟨20, 100⟩)
  ∧ (resolve_rate_hour {} c7Contract).toRat
      = (roundHalfUpScaled 10000 ((⟨168000, 1⟩ : Q).div (resolve_norm_hours {} c7Contract))).toRat
  ∧ c7Plan2.amount_wo_vat = ⟨800000, 100⟩
  ∧ c7Plan2.vat_amount = ⟨160000, 100⟩
  ∧ c7Plan2.amount_total = ⟨960000, 100⟩ := by
  have hfin : finalize_plan emptyDB {} c7Plan = .ok (c7Plan2, []) := by decide
  have hmain := claim7_rounding.1 emptyDB {} c7Plan c7Plan2 [] hfin (by decide)
  have hrate := claim7_rounding.2.1 {} c7Contract (by decide) (by decide)
  refine ⟨hfin, hmain.1, ?_, hrate, by decide, by decide, by decide⟩
  have hv := hmain.2.1
  simpa using hv

/-! Theorems for C8: amount-to-words conversion. -/

/-- C8: the grammatical case is chosen per triplet remainder — teens
(11..19 modulo 100) take the plural-many form, otherwise a final digit 1
takes the singular, 2..4 the plural-few, and 5 and up the plural-many;
and the two pinned phrases hold: 1.00 reads as a capitalized
"Один рубль ноль копеек" and 0 as "Ноль рублей ноль копеек". -/
theorem claim8_amount_words :
    (∀ (v : ℤ) (forms : WordForms),
        (10 < v.natAbs % 100 → v.natAbs % 100 < 20 → chooseForm v forms = forms.many)
      ∧ (¬ (10 < v.natAbs % 100 ∧ v.natAbs % 100 < 20) → v.natAbs % 10 = 1 →
            chooseForm v forms = forms.one)
      ∧ (¬ (10 < v.natAbs % 100 ∧ v.natAbs % 100 < 20) →
            2 ≤ v.natAbs % 10 → v.natAbs % 10 ≤ 4 → chooseForm v forms = forms.few)
      ∧ (¬ (10 < v.natAbs % 100 ∧ v.natAbs % 100 < 20) → 5 ≤ v.natAbs % 10 →
            chooseForm v forms = forms.many))
  ∧ amountToWords ⟨1, 1⟩ = "Один рубль ноль копеек"
  ∧ amountToWords ⟨0, 1⟩ = "Ноль рублей ноль копеек" := by
  refine ⟨fun v forms => ?_, by decide, by decide⟩
  simp only [chooseForm]
  have hmod : v.natAbs % 100 % 10 = v.natAbs % 10 :=
    Nat.mod_mod_of_dvd _ (by norm_num)
  refine ⟨fun h1 h2 => ?_, fun hn h1 => ?_, fun hn h2 h4 => ?_, fun hn h5 => ?_⟩
  · rw [if_pos ⟨h1, h2⟩]
  · rw [if_neg hn, hmod, if_pos h1]
  · rw [if_neg hn, hmod, if_neg (by omega : ¬ v.natAbs % 10 = 1), if_pos ⟨h2, h4⟩]
  · rw [if_neg hn, hmod, if_neg (by omega : ¬ v.natAbs % 10 = 1),
      if_neg (by omega : ¬ (2 ≤ v.natAbs % 10 ∧ v.natAbs % 10 ≤ 4))]

/-- C8 witness: the case-selection clauses applied at 21, 3, 15 and 7,
plus the pinned phrase for one ruble. -/
theorem claim8_witness :
    chooseForm 21 ⟨"рубль", "рубля", "рублей"⟩ = "рубль"
  ∧ chooseForm 3 ⟨"рубль", "рубля", "рублей"⟩ = "рубля"
  ∧ chooseForm 15 ⟨"рубль", "рубля", "рублей"⟩ = "рублей"
  ∧ chooseForm 7 ⟨"рубль", "рубля", "рублей"⟩ = "рублей"
  ∧ amountToWords ⟨1, 1⟩ = "Один рубль ноль копеек" := by
  refine ⟨(claim8_amount_words.1 21 _).2.1 (by decide) (by decide),
          (claim8_amount_words.1 3 _).2.2.1 (by decide) (by decide) (by decide),
          (claim8_amount_words.1 15 _).1 (by decide) (by decide),
          (claim8_amount_words.1 7 _).2.2.2 (by decide) (by decide),
          claim8_amount_words.2.1⟩

end ClosingDocs
